import Mathlib

/-!
# Verification of the healthcare pub/sub → Neo4j ingestion engine

Shallow embedding of the message-driven graph ingestion engine:
* `healthcare_neo4j_service.py` — graph-write handlers (`_create_hospital`,
  `_create_doctor`, `_create_patient`, `_create_diagnosis`, `_create_medication`,
  `_create_procedure`, `_create_generic_entity`) and `get_healthcare_statistics`;
* `healthcare_app.py` — `process_healthcare_message` (payload decoding and
  metrics accounting);
* `healthcare_publisher.py` — `HealthcarePublisherMetrics`, `publish_message_batch`
  and the batching in `publish_healthcare_data_high_performance`.

The graph store is modelled explicitly: a Neo4j node is a label set plus a
property map, a relationship a typed edge between node indices.  Cypher
`MERGE`/`SET`/`CREATE`/`MATCH` patterns used by the handlers are embedded as
state transformers on that store.  Python dictionaries become association
lists, `dict.get(k, d)` becomes `Payload.getD`, `data['id']` (which raises
`KeyError` when absent) becomes an `Except`-valued lookup, and Python
truthiness of the values that the handlers test becomes `Value.truthy`.
-/

namespace PubSubNeo4j

/-- A JSON-ish scalar value as stored in message payloads and node properties.
`num` carries floats (e.g. `cost`) as rationals; no arithmetic is performed on
them by the code, they are only stored and compared. -/
inductive Value where
  | str (s : String)
  | int (n : Int)
  | bool (b : Bool)
  | num (q : ℚ)
  deriving DecidableEq, Repr

/-- Python truthiness restricted to the scalar values above:
`'' `, `0`, `0.0` and `False` are falsy, everything else truthy. -/
def Value.truthy : Value → Bool
  | .str s => s ≠ ""
  | .int n => n ≠ 0
  | .bool b => b
  | .num q => q ≠ 0

/-- A message payload / property bag: a Python dict of field → scalar value. -/
abbrev Payload := List (String × Value)

namespace Payload

/-- `data.get(k)`: `some v` when the key is present, `none` otherwise. -/
def get? (d : Payload) (k : String) : Option Value :=
  (d.find? (fun p => p.1 == k)).map (·.2)

/-- `data.get(k, default)`. -/
def getD (d : Payload) (k : String) (dflt : Value) : Value :=
  (d.get? k).getD dflt

/-- `data[k]`: raises `KeyError(k)` when the key is absent. -/
def getKey (d : Payload) (k : String) : Except String Value :=
  match d.get? k with
  | some v => .ok v
  | none => .error k

/-- Overwrite (or insert) one key of a property bag, as Cypher
`SET n.k = v` does on a node's property map: update the key in place when
present, append it otherwise. -/
def setProp (d : Payload) (k : String) (v : Value) : Payload :=
  match d with
  | [] => [(k, v)]
  | q :: t => if q.1 == k then (k, v) :: t else q :: setProp t k v

/-- `SET` a list of properties in order. -/
def setProps (d : Payload) (kvs : List (String × Value)) : Payload :=
  kvs.foldl (fun acc kv => acc.setProp kv.1 kv.2) d

end Payload

/-- A graph node: Neo4j label set plus property map.  The handlers always
create single-label nodes, but Neo4j nodes carry label *sets*, which is what
the statistics fallback query's `labels(n)[0]` peeks into. -/
structure Node where
  labels : List String
  props : Payload
  deriving DecidableEq, Repr

/-- A relationship: directed typed edge between node indices, with edge
properties (e.g. `prescribed_date` on `PRESCRIBED`). -/
structure Rel where
  src : Nat
  dst : Nat
  relType : String
  props : Payload
  deriving DecidableEq, Repr

/-- The graph store state. -/
structure Graph where
  nodes : List Node
  rels : List Rel
  deriving DecidableEq, Repr

namespace Graph

def empty : Graph := ⟨[], []⟩

/-- Does a node match the Cypher pattern `(n:Label {id: $id})`? -/
def nodeMatches (label : String) (idVal : Value) (n : Node) : Bool :=
  label ∈ n.labels && n.props.get? "id" == some idVal

/-- Indices of all nodes matching `(n:Label {id: $id})`. -/
def matchIdx (g : Graph) (label : String) (idVal : Value) : List Nat :=
  (List.range g.nodes.length).filter
    (fun i => match g.nodes.get? i with
      | some n => nodeMatches label idVal n
      | none => false)

/-- Cypher `MERGE (n:Label {id: $id}) SET n.k1 = v1, ...`:
if a node with that label and id exists, `SET` updates its listed properties
in place; otherwise a new node `{id: $id}` is created and then `SET`. -/
def mergeSetNode (g : Graph) (label : String) (idVal : Value)
    (sets : List (String × Value)) : Graph :=
  if (g.matchIdx label idVal).isEmpty then
    { g with nodes := g.nodes ++ [⟨[label], Payload.setProps [("id", idVal)] sets⟩] }
  else
    { g with nodes := g.nodes.map (fun n =>
        if nodeMatches label idVal n then { n with props := n.props.setProps sets }
        else n) }

/-- Cypher `CREATE (n:Label {props})`: always appends a fresh node. -/
def createNode (g : Graph) (label : String) (props : Payload) : Graph :=
  { g with nodes := g.nodes ++ [⟨[label], props⟩] }

/-- Merge one edge between two concrete node indices: a no-op when an
identical edge already exists. -/
def mergeRelIdx (g : Graph) (r : Rel) : Graph :=
  if r ∈ g.rels then g else { g with rels := g.rels ++ [r] }

/-- Cypher `MATCH (a:La {id:$i}) MATCH (b:Lb {id:$j}) MERGE (a)-[:T props]->(b)`:
for every pair of matching endpoints, merge the edge; when either `MATCH`
finds nothing this is a no-op (no error). -/
def matchMergeRel (g : Graph) (srcLabel : String) (srcId : Value)
    (dstLabel : String) (dstId : Value) (relType : String)
    (props : Payload) : Graph :=
  ((g.matchIdx srcLabel srcId).flatMap
      (fun i => (g.matchIdx dstLabel dstId).map (fun j => (i, j)))).foldl
    (fun acc (p : Nat × Nat) => acc.mergeRelIdx ⟨p.1, p.2, relType, props⟩) g

/-- Number of nodes carrying a given label. -/
def countLabel (g : Graph) (label : String) : Nat :=
  (g.nodes.filter (fun n => label ∈ n.labels)).length

end Graph

/-! ## Graph write handlers (`healthcare_neo4j_service.py`) -/

/-- Errors raised along the ingestion path. `keyError` models Python's
`KeyError` from `data['k']` on a missing key; `malformedPayload` is the
spec's `IngestionError{kind: MalformedPayload}`, i.e. every supported
payload decoding failed. -/
inductive IngestionError where
  | malformedPayload
  | keyError (k : String)
  | attributeError (m : String)
  deriving DecidableEq, Repr

/-- The result dict each handler returns:
`{"entity_id": ..., "type": ..., "relationships_created": ...}`. -/
structure HandlerResult where
  entity_id : Value
  type : String
  relationships_created : Nat
  deriving DecidableEq, Repr

/-- Ambient context of one write transaction: `now` is
`datetime.utcnow().isoformat()` and `uuid` the `str(uuid.uuid4())` the
process would draw next (used only when an unknown-kind payload has no id). -/
structure Ctx where
  now : String
  uuid : String

/-- `_create_hospital`: `MERGE (h:Hospital {id: $id}) SET ...`.
`data['id']` raises `KeyError` when absent; all other fields default. -/
def createHospital (ctx : Ctx) (g : Graph) (data : Payload) :
    Except IngestionError (Graph × HandlerResult) := do
  let idVal ← (data.getKey "id").mapError .keyError
  let g := g.mergeSetNode "Hospital" idVal
    [("name", data.getD "name" (.str "")),
     ("location", data.getD "location" (.str "")),
     ("hospital_type", data.getD "hospital_type" (.str "")),
     ("bed_count", data.getD "bed_count" (.int 0)),
     ("trauma_center", data.getD "trauma_center" (.bool false)),
     ("teaching_hospital", data.getD "teaching_hospital" (.bool false)),
     ("updated_at", .str ctx.now)]
  return (g, ⟨idVal, "Hospital", 0⟩)

/-- `_create_doctor`: merge the Doctor node, then, when `hospital_id` is
present and truthy, `MATCH`-`MATCH`-`MERGE` a `WORKS_AT` edge and count it
(whether or not the hospital exists in the store). -/
def createDoctor (ctx : Ctx) (g : Graph) (data : Payload) :
    Except IngestionError (Graph × HandlerResult) := do
  let idVal ← (data.getKey "id").mapError .keyError
  let g := g.mergeSetNode "Doctor" idVal
    [("name", data.getD "name" (.str "")),
     ("specialty", data.getD "specialty" (.str "")),
     ("license_number", data.getD "license_number" (.str "")),
     ("years_experience", data.getD "years_experience" (.int 0)),
     ("updated_at", .str ctx.now)]
  let (g, rels) :=
    match data.get? "hospital_id" with
    | some hid =>
        if hid.truthy then
          (g.matchMergeRel "Doctor" idVal "Hospital" hid "WORKS_AT" [], 1)
        else (g, 0)
    | none => (g, 0)
  return (g, ⟨idVal, "Doctor", rels⟩)

/-- `_create_patient`: merge the Patient node, then optionally a
`HAS_PRIMARY_CARE_DOCTOR` edge to `primary_care_doctor`. -/
def createPatient (ctx : Ctx) (g : Graph) (data : Payload) :
    Except IngestionError (Graph × HandlerResult) := do
  let idVal ← (data.getKey "id").mapError .keyError
  let g := g.mergeSetNode "Patient" idVal
    [("name", data.getD "name" (.str "")),
     ("mrn", data.getD "mrn" (.str "")),
     ("date_of_birth", data.getD "date_of_birth" (.str "")),
     ("age", data.getD "age" (.int 0)),
     ("gender", data.getD "gender" (.str "")),
     ("phone", data.getD "phone" (.str "")),
     ("email", data.getD "email" (.str "")),
     ("updated_at", .str ctx.now)]
  let (g, rels) :=
    match data.get? "primary_care_doctor" with
    | some did =>
        if did.truthy then
          (g.matchMergeRel "Patient" idVal "Doctor" did "HAS_PRIMARY_CARE_DOCTOR" [], 1)
        else (g, 0)
    | none => (g, 0)
  return (g, ⟨idVal, "Patient", rels⟩)

/-- `_create_diagnosis`: `CREATE` a fresh Diagnosis node (never merged), then
optionally `(p:Patient)-[:HAS_DIAGNOSIS]->(diag)` and
`(d:Doctor)-[:DIAGNOSED]->(diag)` edges.  Each edge is counted as soon as its
foreign id is present and truthy in the payload, regardless of whether the
`MATCH` finds the endpoint. -/
def createDiagnosis (ctx : Ctx) (g : Graph) (data : Payload) :
    Except IngestionError (Graph × HandlerResult) := do
  let idVal ← (data.getKey "id").mapError .keyError
  let g := g.createNode "Diagnosis"
    [("id", idVal),
     ("icd10_code", data.getD "icd10_code" (.str "")),
     ("description", data.getD "description" (.str "")),
     ("severity", data.getD "severity" (.str "")),
     ("diagnosed_date", data.getD "diagnosed_date" (.str "")),
     ("status", data.getD "status" (.str "")),
     ("created_at", .str ctx.now)]
  let (g, rels) :=
    match data.get? "patient_id" with
    | some pid =>
        if pid.truthy then
          (g.matchMergeRel "Patient" pid "Diagnosis" idVal "HAS_DIAGNOSIS" [], 1)
        else (g, 0)
    | none => (g, 0)
  let (g, rels) :=
    match data.get? "doctor_id" with
    | some did =>
        if did.truthy then
          (g.matchMergeRel "Doctor" did "Diagnosis" idVal "DIAGNOSED" [], rels + 1)
        else (g, rels)
    | none => (g, rels)
  return (g, ⟨idVal, "Diagnosis", rels⟩)

/-- `_create_medication`: `CREATE` a fresh Medication node, then optionally
dated `PRESCRIBED` edges from the patient and the prescribing doctor. -/
def createMedication (ctx : Ctx) (g : Graph) (data : Payload) :
    Except IngestionError (Graph × HandlerResult) := do
  let idVal ← (data.getKey "id").mapError .keyError
  let g := g.createNode "Medication"
    [("id", idVal),
     ("medication_name", data.getD "medication_name" (.str "")),
     ("dosage", data.getD "dosage" (.str "")),
     ("frequency", data.getD "frequency" (.str "")),
     ("indication", data.getD "indication" (.str "")),
     ("prescribed_date", data.getD "prescribed_date" (.str "")),
     ("quantity", data.getD "quantity" (.int 0)),
     ("refills", data.getD "refills" (.int 0)),
     ("status", data.getD "status" (.str "")),
     ("created_at", .str ctx.now)]
  let (g, rels) :=
    match data.get? "patient_id" with
    | some pid =>
        if pid.truthy then
          (g.matchMergeRel "Patient" pid "Medication" idVal "PRESCRIBED"
            [("prescribed_date", data.getD "prescribed_date" (.str ""))], 1)
        else (g, 0)
    | none => (g, 0)
  let (g, rels) :=
    match data.get? "prescribing_doctor_id" with
    | some did =>
        if did.truthy then
          (g.matchMergeRel "Doctor" did "Medication" idVal "PRESCRIBED"
            [("date", data.getD "prescribed_date" (.str ""))], rels + 1)
        else (g, rels)
    | none => (g, rels)
  return (g, ⟨idVal, "Medication", rels⟩)

/-- `_create_procedure`: `CREATE` a fresh Procedure node, then optionally
`UNDERWENT` (dated + costed), `PERFORMED` (dated) and `PERFORMED_AT` edges. -/
def createProcedure (ctx : Ctx) (g : Graph) (data : Payload) :
    Except IngestionError (Graph × HandlerResult) := do
  let idVal ← (data.getKey "id").mapError .keyError
  let g := g.createNode "Procedure"
    [("id", idVal),
     ("cpt_code", data.getD "cpt_code" (.str "")),
     ("procedure_name", data.getD "procedure_name" (.str "")),
     ("procedure_type", data.getD "procedure_type" (.str "")),
     ("procedure_date", data.getD "procedure_date" (.str "")),
     ("duration_minutes", data.getD "duration_minutes" (.int 0)),
     ("status", data.getD "status" (.str "")),
     ("cost", data.getD "cost" (.num 0)),
     ("created_at", .str ctx.now)]
  let (g, rels) :=
    match data.get? "patient_id" with
    | some pid =>
        if pid.truthy then
          (g.matchMergeRel "Patient" pid "Procedure" idVal "UNDERWENT"
            [("date", data.getD "procedure_date" (.str "")),
             ("cost", data.getD "cost" (.num 0))], 1)
        else (g, 0)
    | none => (g, 0)
  let (g, rels) :=
    match data.get? "performing_doctor_id" with
    | some did =>
        if did.truthy then
          (g.matchMergeRel "Doctor" did "Procedure" idVal "PERFORMED"
            [("date", data.getD "procedure_date" (.str ""))], rels + 1)
        else (g, rels)
    | none => (g, rels)
  let (g, rels) :=
    match data.get? "hospital_id" with
    | some hid =>
        if hid.truthy then
          (g.matchMergeRel "Procedure" idVal "Hospital" hid "PERFORMED_AT" [], rels + 1)
        else (g, rels)
    | none => (g, rels)
  return (g, ⟨idVal, "Procedure", rels⟩)

/-- Python `str.lower()` (ASCII; the entity kinds routed on are ASCII). -/
def pyLower (s : String) : String :=
  (s.toList.map Char.toLower).asString

/-- Python `str.title()` for the character sets appearing here: a character
is uppercased when the previous character is not alphabetic, lowercased
otherwise. -/
def pyTitle (s : String) : String :=
  (s.toList.foldl
    (fun (acc : List Char × Bool) c =>
      (acc.1 ++ [if acc.2 then c.toLower else c.toUpper], c.isAlpha))
    ([], false)).1.asString

/-- `_create_generic_entity`: unknown kinds become a `CREATE` with a dynamic
label `data.get('type','Unknown').title()`; every payload field except
`type` becomes a node property, plus `created_at`.  The returned entity id
falls back to a fresh uuid when the payload has none. -/
def createGenericEntity (ctx : Ctx) (g : Graph) (data : Payload) :
    Except IngestionError (Graph × HandlerResult) := do
  let entityType ← match data.get? "type" with
    | some (.str s) => Except.ok (pyTitle s)
    | some _ => Except.error (.attributeError "title")
    | none => Except.ok (pyTitle "Unknown")
  let props := Payload.setProp (data.filter (fun p => p.1 ≠ "type")) "created_at" (.str ctx.now)
  let g := g.createNode entityType props
  return (g, ⟨data.getD "id" (.str ctx.uuid), entityType, 0⟩)

/-- `HealthcareNeo4jService._create_healthcare_entity`: lower-case the
`type` field (default `'unknown'`), dispatch to the matching handler, fall
back to the generic handler for unknown kinds.  The surrounding
`try/except` logs and re-raises, so errors pass through unchanged; the
write runs inside `session.execute_write`, so an aborted transaction leaves
the graph unchanged. -/
def createHealthcareEntity (ctx : Ctx) (g : Graph) (data : Payload) :
    Except IngestionError (Graph × HandlerResult) := do
  let messageType ← match data.get? "type" with
    | some (.str s) => Except.ok (pyLower s)
    | some _ => Except.error (.attributeError "lower")
    | none => Except.ok "unknown"
  if messageType = "hospital" then createHospital ctx g data
  else if messageType = "doctor" then createDoctor ctx g data
  else if messageType = "patient" then createPatient ctx g data
  else if messageType = "diagnosis" then createDiagnosis ctx g data
  else if messageType = "medication" then createMedication ctx g data
  else if messageType = "procedure" then createProcedure ctx g data
  else createGenericEntity ctx g data

/-! ## Ingestion dispatcher (`healthcare_app.py`, `process_healthcare_message`) -/

/-- The wire shapes a delivered message can take: a `str`, a `bytes`
object, or anything else (the base64/push branch).  `B` is the type of byte
strings, `O` the type of other objects. -/
inductive WireMessage (B O : Type) where
  | str (s : String)
  | bytes (b : B)
  | other (x : O)

/-- The external decoding primitives the dispatcher calls, modelled as
partial functions (`none` = the Python call raises): `json.loads` on a
string, `bytes.decode('utf-8')`, `base64.b64decode` on a non-str non-bytes
object, and `json.loads` applied directly to such an object. -/
structure Codecs (B O : Type) where
  jsonLoads : String → Option Payload
  utf8Decode : B → Option String
  b64Decode : O → Option B
  jsonLoadsObj : O → Option Payload

/-- The payload-decoding stage of `process_healthcare_message`:
* a `str` goes through `json.loads` directly;
* `bytes` are UTF-8 decoded then parsed (the base64 decoder is never
  consulted on this path);
* anything else first tries `base64.b64decode(...).decode('utf-8')` +
  `json.loads`, falling back to `json.loads` on the raw object.
When the applicable decodings all fail, the result is the
`MalformedPayload` ingestion error. -/
def decodeMessage (c : Codecs B O) : WireMessage B O → Except IngestionError Payload
  | .str s =>
      match c.jsonLoads s with
      | some d => .ok d
      | none => .error .malformedPayload
  | .bytes b =>
      match c.utf8Decode b with
      | some s =>
          match c.jsonLoads s with
          | some d => .ok d
          | none => .error .malformedPayload
      | none => .error .malformedPayload
  | .other x =>
      match (c.b64Decode x).bind (fun b => (c.utf8Decode b).bind c.jsonLoads) with
      | some d => .ok d
      | none =>
          match c.jsonLoadsObj x with
          | some d => .ok d
          | none => .error .malformedPayload

/-- The shared `performance_stats` counter dict of `healthcare_app.py`. -/
structure PerfStats where
  messages_processed : Nat
  messages_failed : Nat
  total_processing_time : ℚ
  relationships_created : Nat
  start_time : ℚ
  deriving DecidableEq, Repr

/-- Round half to even, Python's `round()` tie-breaking. -/
def pyRoundInt (q : ℚ) : Int :=
  if Int.fract q < 1/2 then ⌊q⌋
  else if Int.fract q > 1/2 then ⌊q⌋ + 1
  else if ⌊q⌋ % 2 = 0 then ⌊q⌋ else ⌊q⌋ + 1

/-- Python `round(q, 2)` (modulo binary floating-point representation,
which is not modelled; ties round to even as in Python). -/
def pyRound2 (q : ℚ) : ℚ := (pyRoundInt (q * 100) : ℚ) / 100

/-- The success dict returned by `process_healthcare_message`. -/
structure DispatchResult where
  entity_id : Value
  type : String
  relationships_created : Nat
  processing_time_ms : ℚ
  deriving DecidableEq, Repr

/-- `process_healthcare_message(message_data)`: decode the payload, write it
through the healthcare service, and account the outcome in
`performance_stats`.  `elapsed` is the measured wall-clock processing time
(external).  On any error the counters `messages_failed` and
`total_processing_time` are bumped and the error is re-raised; on success
`messages_processed`, `total_processing_time` and `relationships_created`
are bumped.  A failed service write leaves the graph unchanged (the
per-envelope `execute_write` transaction aborts). -/
def processHealthcareMessage (c : Codecs B O) (ctx : Ctx) (g : Graph)
    (stats : PerfStats) (msg : WireMessage B O) (elapsed : ℚ) :
    Graph × PerfStats × Except IngestionError DispatchResult :=
  let outcome := do
    let data ← decodeMessage c msg
    createHealthcareEntity ctx g data
  match outcome with
  | .ok (g', r) =>
      (g',
       { stats with
          messages_processed := stats.messages_processed + 1
          total_processing_time := stats.total_processing_time + elapsed
          relationships_created := stats.relationships_created + r.relationships_created },
       .ok ⟨r.entity_id, r.type, r.relationships_created, pyRound2 (elapsed * 1000)⟩)
  | .error e =>
      (g,
       { stats with
          messages_failed := stats.messages_failed + 1
          total_processing_time := stats.total_processing_time + elapsed },
       .error e)

/-! ## Batch publisher (`healthcare_publisher.py`) -/

/-- `HealthcarePublisherMetrics` internal state; the lock is not modelled
(mutations are serialized through it in the source). -/
structure PublisherMetrics where
  start_time : Option ℚ
  end_time : Option ℚ
  messages_sent : Nat
  messages_failed : Nat
  total_bytes_sent : Nat
  batch_times : List ℚ
  deriving DecidableEq, Repr

namespace PublisherMetrics

/-- `HealthcarePublisherMetrics.__init__`. -/
def init : PublisherMetrics := ⟨none, none, 0, 0, 0, []⟩

/-- `start_publishing`. -/
def startPublishing (m : PublisherMetrics) (t : ℚ) : PublisherMetrics :=
  { m with start_time := some t }

/-- `record_success(message_size)`. -/
def recordSuccess (m : PublisherMetrics) (size : Nat) : PublisherMetrics :=
  { m with messages_sent := m.messages_sent + 1
           total_bytes_sent := m.total_bytes_sent + size }

/-- `record_failure()`. -/
def recordFailure (m : PublisherMetrics) : PublisherMetrics :=
  { m with messages_failed := m.messages_failed + 1 }

/-- `record_batch_time(batch_time)`. -/
def recordBatchTime (m : PublisherMetrics) (t : ℚ) : PublisherMetrics :=
  { m with batch_times := m.batch_times ++ [t] }

/-- `finish_publishing`. -/
def finishPublishing (m : PublisherMetrics) (t : ℚ) : PublisherMetrics :=
  { m with end_time := some t }

end PublisherMetrics

/-- The statistics dict built by `HealthcarePublisherMetrics.get_stats`. -/
structure PublishStats where
  duration_seconds : ℚ
  total_messages : Nat
  messages_sent : Nat
  messages_failed : Nat
  success_rate_percent : ℚ
  throughput_msg_per_sec : ℚ
  total_bytes_sent : Nat
  avg_message_size : ℚ
  avg_batch_time_ms : ℚ
  deriving DecidableEq, Repr

/-- `get_stats()`: returns the empty dict (`none`) until `start_publishing`
has run; afterwards computes the aggregate statistics, guarding every
division with `max(·, 1)` or `max(·, 0.01)`.  `now` is the current wall
clock, used when `finish_publishing` has not run yet. -/
def getStats (m : PublisherMetrics) (now : ℚ) : Option PublishStats :=
  match m.start_time with
  | none => none
  | some st =>
      let duration := (m.end_time.getD now) - st
      let totalMessages := m.messages_sent + m.messages_failed
      some
        { duration_seconds := pyRound2 duration
          total_messages := totalMessages
          messages_sent := m.messages_sent
          messages_failed := m.messages_failed
          success_rate_percent :=
            pyRound2 (((m.messages_sent : ℚ) / (max totalMessages 1 : Nat)) * 100)
          throughput_msg_per_sec :=
            pyRound2 ((m.messages_sent : ℚ) / max duration (1/100))
          total_bytes_sent := m.total_bytes_sent
          avg_message_size :=
            pyRound2 ((m.total_bytes_sent : ℚ) / (max m.messages_sent 1 : Nat))
          avg_batch_time_ms :=
            if m.batch_times ≠ [] then
              pyRound2 (m.batch_times.sum / (max m.batch_times.length 1 : Nat) * 1000)
            else 0 }

/-- One iteration of the result-wait loop of `publish_message_batch`:
`future.result(...)` succeeded → `record_success` and `batch_success += 1`;
raised → `record_failure` and `batch_failed += 1`. -/
def publishStep (size : α → Nat) (resolve : α → Bool)
    (acc : PublisherMetrics × Nat × Nat) (msg : α) : PublisherMetrics × Nat × Nat :=
  if resolve msg then (acc.1.recordSuccess (size msg), acc.2.1 + 1, acc.2.2)
  else (acc.1.recordFailure, acc.2.1, acc.2.2 + 1)

/-- `publish_message_batch(publisher, topic_path, messages, batch_id, metrics)`.
`size msg` is `len(json.dumps(msg).encode('utf-8'))`, `resolve msg` whether
that message's publish future resolves within its 10s timeout, and
`submitOk` whether the submission loop itself completes without raising.
When submission raises, one failure is recorded and `(0, len(messages))`
returned; otherwise each message is tallied individually, the batch time
recorded, and `(batch_success, batch_failed)` returned. -/
def publishMessageBatch (size : α → Nat) (resolve : α → Bool) (submitOk : Bool)
    (messages : List α) (m : PublisherMetrics) (batchTime : ℚ) :
    PublisherMetrics × Nat × Nat :=
  if !submitOk then
    (m.recordFailure, 0, messages.length)
  else
    let (m, bs, bf) := messages.foldl (publishStep size resolve) (m, 0, 0)
    (m.recordBatchTime batchTime, bs, bf)

/-- Fuel-indexed helper for the list-comprehension
`[data[i:i + batch_size] for i in range(0, len(data), batch_size)]`;
the fuel is an upper bound on the number of slices. -/
def splitGo (bs : Nat) : Nat → List α → List (List α)
  | 0, _ => []
  | _ + 1, [] => []
  | fuel + 1, l => l.take bs :: splitGo bs fuel (l.drop bs)

/-- The batch partitioning performed by
`publish_healthcare_data_high_performance`: contiguous slices of size
`batch_size` (the last possibly shorter). -/
def splitIntoBatches (bs : Nat) (l : List α) : List (List α) :=
  splitGo bs l.length l

/-- The sizes of the batches `splitIntoBatches` produces, as a function of
the input length alone. -/
def splitLens (bs : Nat) : Nat → Nat → List Nat
  | 0, _ => []
  | _ + 1, 0 => []
  | fuel + 1, n + 1 => min bs (n + 1) :: splitLens bs fuel (n + 1 - bs)

/-- One completed batch future in the driver loop: accumulate the batch's
`(success, failed)` pair into the running totals. -/
def runBatchesStep (size : α → Nat) (resolve : α → Bool) (batchTime : ℚ)
    (acc : PublisherMetrics × Nat × Nat) (batch : List α) :
    PublisherMetrics × Nat × Nat :=
  let (m', s, f) := publishMessageBatch size resolve true batch acc.1 batchTime
  (m', acc.2.1 + s, acc.2.2 + f)

/-- Sequential model of the publishing pool: every batch is handed to
`publish_message_batch` and the per-batch results accumulated.  (The real
pool runs batches concurrently, but all metrics mutations are serialized
through the metrics lock and addition commutes, so counter totals agree
with this sequential fold.) -/
def runBatches (size : α → Nat) (resolve : α → Bool) (batchTime : ℚ)
    (batches : List (List α)) (m : PublisherMetrics) :
    PublisherMetrics × Nat × Nat :=
  batches.foldl (runBatchesStep size resolve batchTime) (m, 0, 0)

/-! ## Statistics aggregator (`get_healthcare_statistics`) -/

/-- `ORDER BY count DESC`: sort key/count pairs by descending count
(mergeSort is stable, matching a deterministic store ordering on ties). -/
def sortByCountDesc (l : List (K × Nat)) : List (K × Nat) :=
  l.mergeSort (fun a b => decide (b.2 ≤ a.2))

/-- Grouped counting, as Cypher `RETURN key, count(*)` over a column of
keys: one row per distinct key, in first-occurrence order. -/
def countBy [DecidableEq K] (keys : List K) : List (K × Nat) :=
  keys.dedup.map (fun k => (k, keys.count k))

/-- The APOC node-statistics query: `db.labels()` yields every distinct
label in the store and each is counted separately (a row per label).  The
row key is always a label string. -/
def apocNodeStats (g : Graph) : List (Option String × Nat) :=
  sortByCountDesc
    (((g.nodes.flatMap (·.labels)).dedup).map (fun L => (some L, g.countLabel L)))

/-- The fallback node-statistics query used when APOC is unavailable:
`MATCH (n) RETURN labels(n)[0] as entity_type, count(*)` — nodes grouped by
their first label (`null`, i.e. `none`, for label-less nodes). -/
def fallbackNodeStats (g : Graph) : List (Option String × Nat) :=
  sortByCountDesc (countBy (g.nodes.map (fun n => n.labels.head?)))

/-- `MATCH ()-[r]->() RETURN type(r), count(r) ORDER BY count DESC`. -/
def relTypeStats (g : Graph) : List (String × Nat) :=
  sortByCountDesc (countBy (g.rels.map (·.relType)))

/-- The dict returned by `get_healthcare_statistics`. -/
structure HealthcareStatistics where
  total_nodes : Nat
  total_relationships : Nat
  node_statistics : List (Option String × Nat)
  relationship_statistics : List (String × Nat)
  deriving DecidableEq, Repr

/-- `get_healthcare_statistics()`: per-label node counts (via APOC when the
store has it, else the full-scan fallback), per-type relationship counts,
and totals summed across the groups. -/
def getHealthcareStatistics (apocAvailable : Bool) (g : Graph) :
    HealthcareStatistics :=
  let nodeStats := if apocAvailable then apocNodeStats g else fallbackNodeStats g
  let relStats := relTypeStats g
  { total_nodes := (nodeStats.map (·.2)).sum
    total_relationships := (relStats.map (·.2)).sum
    node_statistics := nodeStats
    relationship_statistics := relStats }

/-! ## Supporting lemmas about the graph-store embedding -/

namespace Graph

theorem mergeRelIdx_nodes (g : Graph) (r : Rel) : (g.mergeRelIdx r).nodes = g.nodes := by
  unfold mergeRelIdx; split <;> rfl

theorem foldl_mergeRelIdx_nodes (l : List Rel) (g : Graph) :
    (l.foldl (fun acc r => acc.mergeRelIdx r) g).nodes = g.nodes := by
  induction l generalizing g with
  | nil => rfl
  | cons r t ih => simpa [List.foldl_cons, mergeRelIdx_nodes] using ih (g.mergeRelIdx r)

/-- `MATCH`-`MATCH`-`MERGE` relationship creation never changes the node set. -/
theorem matchMergeRel_nodes (g : Graph) (sl : String) (si : Value) (dl : String)
    (di : Value) (t : String) (props : Payload) :
    (g.matchMergeRel sl si dl di t props).nodes = g.nodes := by
  unfold matchMergeRel
  generalize ((g.matchIdx sl si).flatMap fun i => (g.matchIdx dl di).map fun j => (i, j)) = l
  induction l generalizing g with
  | nil => rfl
  | cons p t ih => simpa [List.foldl_cons, mergeRelIdx_nodes] using ih (g.mergeRelIdx ⟨p.1, p.2, _, props⟩)

/-- When the source pattern matches nothing, relationship `MERGE` is a no-op. -/
theorem matchMergeRel_src_empty (g : Graph) (sl : String) (si : Value) (dl : String)
    (di : Value) (t : String) (props : Payload) (h : g.matchIdx sl si = []) :
    g.matchMergeRel sl si dl di t props = g := by
  unfold matchMergeRel
  rw [h]
  rfl

theorem mergeRelIdx_rels_filter (g : Graph) (r : Rel) (p : Rel → Bool) (hp : p r = false) :
    (g.mergeRelIdx r).rels.filter p = g.rels.filter p := by
  unfold mergeRelIdx; split
  · rfl
  · simp [List.filter_append, hp]

/-- Merging edges of type `t` leaves the set of edges of any other type alone. -/
theorem matchMergeRel_rels_filter_ne (g : Graph) (sl : String) (si : Value) (dl : String)
    (di : Value) (t t' : String) (props : Payload) (h : t' ≠ t) :
    (g.matchMergeRel sl si dl di t props).rels.filter (fun e => e.relType == t') =
      g.rels.filter (fun e => e.relType == t') := by
  unfold matchMergeRel
  generalize ((g.matchIdx sl si).flatMap fun i => (g.matchIdx dl di).map fun j => (i, j)) = l
  induction l generalizing g with
  | nil => rfl
  | cons q tl ih =>
      rw [List.foldl_cons, ih]
      exact mergeRelIdx_rels_filter g _ _ (by simpa using fun hh => (h hh.symm).elim)

theorem countLabel_createNode_same (g : Graph) (label : String) (props : Payload) :
    (g.createNode label props).countLabel label = g.countLabel label + 1 := by
  simp [createNode, countLabel, List.filter_append]

theorem countLabel_createNode_ne (g : Graph) (label label' : String) (props : Payload)
    (h : label' ≠ label) :
    (g.createNode label props).countLabel label' = g.countLabel label' := by
  simp [createNode, countLabel, List.filter_append, h]

/-- Appending a node that does not match a pattern leaves that pattern's
match set unchanged. -/
theorem matchIdx_append_nonmatching (g : Graph) (n : Node) (rels' : List Rel)
    (label : String) (idv : Value) (h : nodeMatches label idv n = false) :
    (Graph.mk (g.nodes ++ [n]) rels').matchIdx label idv = g.matchIdx label idv := by
  unfold matchIdx
  simp only [List.length_append, List.length_singleton, List.range_succ, List.filter_append]
  have h1 : ∀ i ∈ List.range g.nodes.length,
      (g.nodes ++ [n]).get? i = g.nodes.get? i := by
    intro i hi
    rw [List.mem_range] at hi
    simp [List.getElem?_append_left hi]
  rw [List.filter_congr (by
    intro i hi
    rw [h1 i hi])]
  have h2 : ((g.nodes ++ [n]).get? g.nodes.length) = some n := by
    simp [List.getElem?_append_right (Nat.le_refl _)]
  simp [h2, h]

end Graph

namespace Graph

theorem matchIdx_congr (g g' : Graph) (h : g.nodes = g'.nodes) (label : String) (i : Value) :
    g.matchIdx label i = g'.matchIdx label i := by
  unfold matchIdx
  rw [h]

theorem nodeMatches_false_of_matchIdx_nil (g : Graph) (label : String) (i : Value)
    (h : g.matchIdx label i = []) :
    ∀ n ∈ g.nodes, nodeMatches label i n = false := by
  intro n hn
  by_contra hcon
  have hmatch : nodeMatches label i n = true := by
    cases hm : nodeMatches label i n
    · exact absurd hm hcon
    · rfl
  obtain ⟨idx, hidx⟩ := List.getElem?_of_mem hn
  have hmem : idx ∈ g.matchIdx label i := by
    unfold matchIdx
    refine List.mem_filter.mpr ⟨List.mem_range.mpr ?_, ?_⟩
    · exact (List.getElem?_eq_some.mp hidx).1
    · rw [List.get?_eq_getElem?, hidx]
      exact hmatch
  rw [h] at hmem
  exact absurd hmem (List.not_mem_nil idx)

theorem mergeSetNode_nil (g : Graph) (label : String) (i : Value)
    (kvs : List (String × Value)) (hNone : g.matchIdx label i = []) :
    (g.mergeSetNode label i kvs).nodes
      = g.nodes ++ [⟨[label], Payload.setProps [("id", i)] kvs⟩] := by
  unfold mergeSetNode
  rw [hNone]
  rfl

theorem matchIdx_append_matching_ne_nil (g : Graph) (n : Node) (rels' : List Rel)
    (label : String) (i : Value) (h : nodeMatches label i n = true) :
    (Graph.mk (g.nodes ++ [n]) rels').matchIdx label i ≠ [] := by
  intro hcon
  have hmem : g.nodes.length ∈ (Graph.mk (g.nodes ++ [n]) rels').matchIdx label i := by
    unfold matchIdx
    refine List.mem_filter.mpr ⟨List.mem_range.mpr (by simp), ?_⟩
    have hget : (g.nodes ++ [n]).get? g.nodes.length = some n := by
      simp [List.getElem?_append_right (Nat.le_refl _)]
    simp only [hget]
    exact h
  rw [hcon] at hmem
  exact absurd hmem (List.not_mem_nil _)

theorem mergeSetNode_update (g : Graph) (old : List Node) (n : Node)
    (label : String) (i : Value) (kvs : List (String × Value))
    (hnodes : g.nodes = old ++ [n])
    (hold : ∀ m ∈ old, nodeMatches label i m = false)
    (hn : nodeMatches label i n = true) :
    (g.mergeSetNode label i kvs).nodes
      = old ++ [{ n with props := n.props.setProps kvs }] := by
  unfold mergeSetNode
  have hne : (g.matchIdx label i).isEmpty = false := by
    have h1 : g.matchIdx label i
        = (Graph.mk (old ++ [n]) g.rels).matchIdx label i := by
      apply matchIdx_congr
      exact hnodes
    cases hemp : (g.matchIdx label i).isEmpty
    · rfl
    · exfalso
      exact matchIdx_append_matching_ne_nil ⟨old, g.rels⟩ n g.rels label i hn
        (h1 ▸ List.isEmpty_iff.mp hemp)
  rw [if_neg (by simp [hne])]
  dsimp only
  rw [hnodes, List.map_append]
  congr 1
  · have hmap : ∀ m ∈ old,
        (if nodeMatches label i m then { m with props := m.props.setProps kvs } else m) = m := by
      intro m hm
      rw [if_neg (by simp [hold m hm])]
    calc old.map _ = old.map id := List.map_congr_left hmap
    _ = old := List.map_id old
  · simp [hn]

end Graph

/-- `countLabel` only looks at the node list. -/
theorem countLabel_eq_of_nodes_eq (g g' : Graph) (h : g'.nodes = g.nodes) (label : String) :
    g'.countLabel label = g.countLabel label := by
  unfold Graph.countLabel
  rw [h]

/-! ## Supporting lemmas about the property-bag embedding -/

namespace Payload

theorem get?_setProp_same (p : Payload) (k : String) (v : Value) :
    (p.setProp k v).get? k = some v := by
  induction p with
  | nil => simp [setProp, get?, List.find?]
  | cons q t ih =>
      unfold setProp
      by_cases h : q.1 == k
      · simp [h, get?, List.find?]
      · simp only [h, if_neg, Bool.false_eq_true, not_false_eq_true, if_false]
        simp only [get?, List.find?, h] at ih ⊢
        exact ih

theorem get?_setProp_ne (p : Payload) (k k' : String) (v : Value) (h : k' ≠ k) :
    (p.setProp k v).get? k' = p.get? k' := by
  have hkk : (k == k') = false := beq_eq_false_iff_ne.mpr (fun hh => h hh.symm)
  induction p with
  | nil => simp [setProp, get?, List.find?, hkk]
  | cons q t ih =>
      unfold setProp
      by_cases hq : q.1 == k
      · have hq' : (q.1 == k') = false := by
          have : q.1 = k := by simpa using hq
          rw [this]
          exact hkk
        simp [hq, get?, List.find?, hkk, hq']
      · simp only [hq, Bool.false_eq_true, not_false_eq_true, if_false]
        by_cases hq' : q.1 == k'
        · simp [get?, List.find?, hq']
        · simp only [get?, List.find?, hq', Bool.false_eq_true, not_false_eq_true, if_false] at ih ⊢
          exact ih

theorem get?_setProps_not_mem (p : Payload) (kvs : List (String × Value)) (k : String)
    (h : k ∉ kvs.map Prod.fst) :
    (Payload.setProps p kvs).get? k = p.get? k := by
  induction kvs generalizing p with
  | nil => rfl
  | cons q t ih =>
      simp only [List.map_cons, List.mem_cons, not_or] at h
      rw [setProps, List.foldl_cons]
      have := ih (p.setProp q.1 q.2) h.2
      rw [setProps] at this
      rw [this, get?_setProp_ne _ _ _ _ h.1]

theorem mem_keys_setProp (p : Payload) (k k' : String) (v : Value)
    (h : k' ∈ p.map Prod.fst) : k' ∈ (p.setProp k v).map Prod.fst := by
  induction p with
  | nil => simp at h
  | cons q t ih =>
      by_cases hq : (q.1 == k) = true
      · have hq' : q.1 = k := by simpa using hq
        simp only [List.map_cons, List.mem_cons] at h
        rcases h with h | h
        · simp [setProp, hq, h, hq']
        · simp [setProp, hq, h]
      · simp only [List.map_cons, List.mem_cons] at h
        rcases h with h | h
        · simp [setProp, hq, h]
        · simp [setProp, hq, ih h]

theorem mem_keys_setProp_self (p : Payload) (k : String) (v : Value) :
    k ∈ (p.setProp k v).map Prod.fst := by
  induction p with
  | nil => simp [setProp]
  | cons q t ih =>
      by_cases hq : (q.1 == k) = true
      · simp [setProp, hq]
      · simp [setProp, hq]
        right
        simpa using ih

theorem setProp_setProp_same (p : Payload) (k : String) (v w : Value) :
    (p.setProp k v).setProp k w = p.setProp k w := by
  induction p with
  | nil => simp [setProp]
  | cons q t ih =>
      by_cases hq : (q.1 == k) = true
      · simp [setProp, hq]
      · simp [setProp, hq, ih]

theorem setProp_comm_of_mem (p : Payload) (j k : String) (v w : Value)
    (hjk : j ≠ k) (hk : k ∈ p.map Prod.fst) :
    (p.setProp j v).setProp k w = (p.setProp k w).setProp j v := by
  have hjkb : (j == k) = false := beq_eq_false_iff_ne.mpr hjk
  have hkjb : (k == j) = false := beq_eq_false_iff_ne.mpr (Ne.symm hjk)
  induction p with
  | nil => simp at hk
  | cons q t ih =>
      by_cases hqk : (q.1 == k) = true
      · have hqj : (q.1 == j) = false := by
          have hq : q.1 = k := by simpa using hqk
          rw [hq]
          exact hkjb
        simp [setProp, hqk, hqj, hkjb]
      · by_cases hqj : (q.1 == j) = true
        · simp [setProp, hqk, hqj, hjkb]
        · have hk' : k ∈ t.map Prod.fst := by
            simp only [List.map_cons, List.mem_cons] at hk
            rcases hk with hk | hk
            · exact absurd (by simpa using hk.symm) (by simpa using hqk)
            · exact hk
          simp [setProp, hqk, hqj, ih hk']

theorem setProps_nil (p : Payload) : Payload.setProps p [] = p := rfl

theorem setProps_cons (p : Payload) (q : String × Value) (t : List (String × Value)) :
    Payload.setProps p (q :: t) = Payload.setProps (p.setProp q.1 q.2) t := rfl

theorem setProp_setProps_comm (kvs : List (String × Value)) (p : Payload)
    (k : String) (v : Value)
    (hkp : k ∈ p.map Prod.fst) (hkt : k ∉ kvs.map Prod.fst) :
    (Payload.setProps p kvs).setProp k v = Payload.setProps (p.setProp k v) kvs := by
  induction kvs generalizing p with
  | nil => rfl
  | cons q t ih =>
      simp only [List.map_cons, List.mem_cons, not_or] at hkt
      rw [setProps_cons, setProps_cons]
      rw [ih (p.setProp q.1 q.2) (mem_keys_setProp p q.1 k q.2 hkp) hkt.2]
      rw [setProp_comm_of_mem p q.1 k q.2 v (fun h => hkt.1 h.symm) hkp]

theorem setProps_override (kvs₁ : List (String × Value)) :
    ∀ (kvs₂ : List (String × Value)) (p : Payload),
      kvs₁.map Prod.fst = kvs₂.map Prod.fst →
      (kvs₂.map Prod.fst).Nodup →
      Payload.setProps (Payload.setProps p kvs₁) kvs₂ = Payload.setProps p kvs₂ := by
  induction kvs₁ with
  | nil =>
      intro kvs₂ p hkeys _
      have h2 : kvs₂ = [] := by
        cases kvs₂ with
        | nil => rfl
        | cons _ _ => simp at hkeys
      subst h2
      rfl
  | cons q₁ t₁ ih =>
      intro kvs₂ p hkeys hnodup
      cases kvs₂ with
      | nil => simp at hkeys
      | cons q₂ t₂ =>
          simp only [List.map_cons, List.cons.injEq] at hkeys
          obtain ⟨hk, ht⟩ := hkeys
          simp only [List.map_cons, List.nodup_cons] at hnodup
          obtain ⟨hq₂, hnd⟩ := hnodup
          rw [setProps_cons, setProps_cons, setProps_cons]
          rw [setProp_setProps_comm t₁ (p.setProp q₁.1 q₁.2) q₂.1 q₂.2
              (by rw [← hk]; exact mem_keys_setProp_self p q₁.1 q₁.2)
              (by rw [ht]; exact hq₂)]
          have hs : (p.setProp q₁.1 q₁.2).setProp q₂.1 q₂.2 = p.setProp q₂.1 q₂.2 := by
            rw [hk]
            exact setProp_setProp_same p q₂.1 q₁.2 q₂.2
          rw [hs]
          exact ih t₂ (p.setProp q₂.1 q₂.2) ht hnd

end Payload

/-! ## Supporting lemmas about the publisher embedding -/

theorem foldl_publishStep_tally (size : α → Nat) (resolve : α → Bool)
    (messages : List α) (acc : PublisherMetrics × Nat × Nat) :
    (messages.foldl (publishStep size resolve) acc).2.1 +
      (messages.foldl (publishStep size resolve) acc).2.2 =
      acc.2.1 + acc.2.2 + messages.length ∧
    (messages.foldl (publishStep size resolve) acc).1.messages_sent +
      (messages.foldl (publishStep size resolve) acc).1.messages_failed =
      acc.1.messages_sent + acc.1.messages_failed + messages.length := by
  induction messages generalizing acc with
  | nil => simp
  | cons x t ih =>
      rcases (ih (publishStep size resolve acc x)) with ⟨ih1, ih2⟩
      rw [List.foldl_cons]
      refine ⟨ih1.trans ?_, ih2.trans ?_⟩ <;>
        · unfold publishStep
          split <;>
            simp [PublisherMetrics.recordSuccess, PublisherMetrics.recordFailure,
              List.length_cons] <;> omega

theorem publishMessageBatch_counter_tally (size : α → Nat) (resolve : α → Bool)
    (messages : List α) (m : PublisherMetrics) (batchTime : ℚ) :
    (publishMessageBatch size resolve true messages m batchTime).1.messages_sent +
      (publishMessageBatch size resolve true messages m batchTime).1.messages_failed =
      m.messages_sent + m.messages_failed + messages.length := by
  unfold publishMessageBatch
  have h := (foldl_publishStep_tally size resolve messages (m, 0, 0)).2
  simp only [Bool.not_true, Bool.false_eq_true, if_false, PublisherMetrics.recordBatchTime]
  simpa using h

theorem foldl_runBatchesStep_tally (size : α → Nat) (resolve : α → Bool) (batchTime : ℚ)
    (batches : List (List α)) (acc : PublisherMetrics × Nat × Nat) :
    (batches.foldl (runBatchesStep size resolve batchTime) acc).1.messages_sent +
      (batches.foldl (runBatchesStep size resolve batchTime) acc).1.messages_failed =
      acc.1.messages_sent + acc.1.messages_failed + (batches.map List.length).sum := by
  induction batches generalizing acc with
  | nil => simp
  | cons b t ih =>
      rw [List.foldl_cons]
      rw [ih (runBatchesStep size resolve batchTime acc b)]
      have hstep : (runBatchesStep size resolve batchTime acc b).1.messages_sent +
          (runBatchesStep size resolve batchTime acc b).1.messages_failed =
          acc.1.messages_sent + acc.1.messages_failed + b.length := by
        unfold runBatchesStep
        exact publishMessageBatch_counter_tally size resolve b acc.1 batchTime
      rw [hstep]
      simp
      omega

theorem splitGo_flatten {α : Type} (bs : Nat) (hbs : 0 < bs) :
    ∀ (fuel : Nat) (l : List α), l.length ≤ fuel → (splitGo bs fuel l).flatten = l := by
  intro fuel
  induction fuel with
  | zero =>
      intro l hl
      rw [List.length_eq_zero.mp (Nat.le_zero.mp hl)]
      rfl
  | succ n ih =>
      intro l hl
      cases l with
      | nil => rfl
      | cons x t =>
          show ((x :: t).take bs ++ (splitGo bs n ((x :: t).drop bs)).flatten) = x :: t
          rw [ih _ (by simp at hl ⊢; omega), List.take_append_drop]

theorem splitGo_map_length {α : Type} (bs : Nat) :
    ∀ (fuel : Nat) (l : List α),
      (splitGo bs fuel l).map List.length = splitLens bs fuel l.length := by
  intro fuel
  induction fuel with
  | zero => intro l; rfl
  | succ n ih =>
      intro l
      cases l with
      | nil => rfl
      | cons x t =>
          show (((x :: t).take bs).length :: (splitGo bs n ((x :: t).drop bs)).map List.length)
              = min bs (t.length + 1) :: splitLens bs n (t.length + 1 - bs)
          rw [ih]
          simp [List.length_take, List.length_drop]

/-! ## Claim theorems -/

/-- C1, counterexample: in the spec's end-to-end scenario (doctor `p1`
ingested, patient id `"missing"` never ingested), processing
`{kind: "diagnosis", id: "d1", patient_id: "missing", doctor_id: "p1"}`
creates exactly one Diagnosis node but the handler returns
`relationships_created == 2`, not `1` as claimed: the patient edge is
counted because `patient_id` is present and truthy, even though its
store-side `MATCH` finds nothing. -/
theorem diagnosis_missing_patient_claim_cex :
    ((createHealthcareEntity ⟨"t0", "u0"⟩ Graph.empty
        [("type", Value.str "doctor"), ("id", Value.str "p1")]).toOption.bind
      (fun p => (createHealthcareEntity ⟨"t1", "u1"⟩ p.1
        [("type", Value.str "diagnosis"), ("id", Value.str "d1"),
         ("patient_id", Value.str "missing"), ("doctor_id", Value.str "p1")]).toOption.map
        (fun q => (q.2.relationships_created, q.1.countLabel "Diagnosis"))))
      = some (2, 1) ∧ (2 : Nat) ≠ 1 := by
  constructor
  · decide
  · decide

/-- C1, amended: for a diagnosis envelope whose `patient_id` and `doctor_id`
are both present and truthy, and whose patient id matches no node in the
store, processing creates exactly one Diagnosis node and the handler
returns `relationships_created == 2`: both edges are counted as attempted,
while the edge to the missing patient is a store-side no-op (the set of
`HAS_DIAGNOSIS` edges is unchanged). -/
theorem diagnosis_both_refs_counted (ctx : Ctx) (g : Graph) (i pid did : Value)
    (d : Payload)
    (hType : d.get? "type" = some (.str "diagnosis"))
    (hId : d.get? "id" = some i)
    (hPid : d.get? "patient_id" = some pid)
    (hPidT : pid.truthy = true)
    (hDid : d.get? "doctor_id" = some did)
    (hDidT : did.truthy = true)
    (hNoPatient : g.matchIdx "Patient" pid = []) :
    ∃ g' r, createHealthcareEntity ctx g d = .ok (g', r) ∧
      r.relationships_created = 2 ∧
      r.type = "Diagnosis" ∧
      g'.countLabel "Diagnosis" = g.countLabel "Diagnosis" + 1 ∧
      g'.rels.filter (fun e => e.relType == "HAS_DIAGNOSIS") =
        g.rels.filter (fun e => e.relType == "HAS_DIAGNOSIS") := by
  have hdisp : createHealthcareEntity ctx g d = createDiagnosis ctx g d := by
    unfold createHealthcareEntity
    rw [hType]
    rfl
  set P : Payload :=
    [("id", i),
     ("icd10_code", d.getD "icd10_code" (.str "")),
     ("description", d.getD "description" (.str "")),
     ("severity", d.getD "severity" (.str "")),
     ("diagnosed_date", d.getD "diagnosed_date" (.str "")),
     ("status", d.getD "status" (.str "")),
     ("created_at", .str ctx.now)] with hP
  have hmi : (g.createNode "Diagnosis" P).matchIdx "Patient" pid = g.matchIdx "Patient" pid := by
    exact Graph.matchIdx_append_nonmatching g ⟨["Diagnosis"], P⟩ g.rels "Patient" pid
      (by simp [Graph.nodeMatches])
  have hnoop : (g.createNode "Diagnosis" P).matchMergeRel "Patient" pid "Diagnosis" i
      "HAS_DIAGNOSIS" [] = g.createNode "Diagnosis" P :=
    Graph.matchMergeRel_src_empty _ _ _ _ _ _ _ (hmi.trans hNoPatient)
  have hrun : createDiagnosis ctx g d =
      .ok ((g.createNode "Diagnosis" P).matchMergeRel "Doctor" did "Diagnosis" i "DIAGNOSED" [],
           ⟨i, "Diagnosis", 2⟩) := by
    unfold createDiagnosis
    simp [Payload.getKey, hId, hPid, hPidT, hDid, hDidT, hP, Except.mapError, Except.map, hnoop]
  refine ⟨_, _, hdisp.trans hrun, rfl, rfl, ?_, ?_⟩
  · rw [countLabel_eq_of_nodes_eq _ _ (Graph.matchMergeRel_nodes _ _ _ _ _ _ _)]
    exact Graph.countLabel_createNode_same g "Diagnosis" P
  · rw [Graph.matchMergeRel_rels_filter_ne _ _ _ _ _ _ _ _ (by decide)]
    rfl

/-- C1 witness: the amended theorem applied at the spec scenario's concrete
diagnosis envelope against the empty store. -/
theorem diagnosis_both_refs_counted_witness :
    ∃ g' r, createHealthcareEntity ⟨"t1", "u1"⟩ Graph.empty
        [("type", Value.str "diagnosis"), ("id", Value.str "d1"),
         ("patient_id", Value.str "missing"), ("doctor_id", Value.str "p1")] = .ok (g', r) ∧
      r.relationships_created = 2 ∧
      r.type = "Diagnosis" ∧
      g'.countLabel "Diagnosis" = Graph.empty.countLabel "Diagnosis" + 1 ∧
      g'.rels.filter (fun e => e.relType == "HAS_DIAGNOSIS") =
        Graph.empty.rels.filter (fun e => e.relType == "HAS_DIAGNOSIS") :=
  diagnosis_both_refs_counted ⟨"t1", "u1"⟩ Graph.empty
    (.str "d1") (.str "missing") (.str "p1")
    [("type", Value.str "diagnosis"), ("id", Value.str "d1"),
     ("patient_id", Value.str "missing"), ("doctor_id", Value.str "p1")]
    (by decide) (by decide) (by decide) (by decide) (by decide) (by decide) (by decide)

/-- C2, counterexample: processing a `{type: "hospital"}` envelope with no
`id` field does not complete — `_create_hospital` evaluates `data['id']`
and raises `KeyError('id')` (the defaulted `entity_id` computed in
`_create_healthcare_entity` is used only for logging and never passed on). -/
theorem hospital_missing_id_raises :
    createHealthcareEntity ⟨"t0", "u0"⟩ Graph.empty [("type", Value.str "hospital")] =
      Except.error (IngestionError.keyError "id") := by
  rfl

/-- C2, amended: for every envelope of a known kind whose `id` field is
present, `classify_and_route` does not raise, whatever other fields are
absent — every other field defaults per kind (empty string / 0 / false). -/
theorem known_kind_with_id_never_raises (ctx : Ctx) (g : Graph) (d : Payload)
    (kind : String) (i : Value)
    (hKind : kind ∈ (["hospital", "doctor", "patient",
                      "diagnosis", "medication", "procedure"] : List String))
    (hType : d.get? "type" = some (.str kind))
    (hId : d.get? "id" = some i) :
    ∃ g' r, createHealthcareEntity ctx g d = .ok (g', r) := by
  simp only [List.mem_cons, List.not_mem_nil, or_false] at hKind
  rcases hKind with rfl | rfl | rfl | rfl | rfl | rfl
  · have hdisp : createHealthcareEntity ctx g d = createHospital ctx g d := by
      unfold createHealthcareEntity
      rw [hType]
      rfl
    rw [hdisp]
    unfold createHospital
    simp [Payload.getKey, hId, Except.mapError]
  · have hdisp : createHealthcareEntity ctx g d = createDoctor ctx g d := by
      unfold createHealthcareEntity
      rw [hType]
      rfl
    rw [hdisp]
    unfold createDoctor
    simp [Payload.getKey, hId, Except.mapError]
  · have hdisp : createHealthcareEntity ctx g d = createPatient ctx g d := by
      unfold createHealthcareEntity
      rw [hType]
      rfl
    rw [hdisp]
    unfold createPatient
    simp [Payload.getKey, hId, Except.mapError]
  · have hdisp : createHealthcareEntity ctx g d = createDiagnosis ctx g d := by
      unfold createHealthcareEntity
      rw [hType]
      rfl
    rw [hdisp]
    unfold createDiagnosis
    simp [Payload.getKey, hId, Except.mapError]
  · have hdisp : createHealthcareEntity ctx g d = createMedication ctx g d := by
      unfold createHealthcareEntity
      rw [hType]
      rfl
    rw [hdisp]
    unfold createMedication
    simp [Payload.getKey, hId, Except.mapError]
  · have hdisp : createHealthcareEntity ctx g d = createProcedure ctx g d := by
      unfold createHealthcareEntity
      rw [hType]
      rfl
    rw [hdisp]
    unfold createProcedure
    simp [Payload.getKey, hId, Except.mapError]

/-- C2 witness: the amended theorem applied to a minimal medication
envelope carrying only `type` and `id`. -/
theorem known_kind_with_id_never_raises_witness :
    ∃ g' r, createHealthcareEntity ⟨"t0", "u0"⟩ Graph.empty
      [("type", Value.str "medication"), ("id", Value.str "m1")] = .ok (g', r) :=
  known_kind_with_id_never_raises ⟨"t0", "u0"⟩ Graph.empty
    [("type", Value.str "medication"), ("id", Value.str "m1")]
    "medication" (.str "m1") (by decide) (by decide) (by decide)

/-- Unfolding equation for `decodeMessage` on the bytes shape. -/
theorem decodeMessage_bytes_eq {B O : Type} (c : Codecs B O) (b : B) :
    decodeMessage c (.bytes b) =
      match c.utf8Decode b with
      | some s =>
          match c.jsonLoads s with
          | some d => .ok d
          | none => .error .malformedPayload
      | none => .error .malformedPayload := rfl

/-- C3: the dispatcher's payload decoding is deterministic with a fixed
fallback order: (1) for a bytes input that UTF-8 decodes and JSON-parses,
the UTF-8 interpretation is returned regardless of how the base64 decoders
would behave (the base64 path is never consulted for bytes); (2)–(4) for
each wire shape, when every decoding it attempts fails, the result is the
`MalformedPayload` ingestion error. -/
theorem decode_fallback_order {B O : Type} :
    (∀ (c : Codecs B O) (b : B) (s : String) (dta : Payload),
        c.utf8Decode b = some s → c.jsonLoads s = some dta →
        ∀ (b64Dec : O → Option B) (jo : O → Option Payload),
          decodeMessage { c with b64Decode := b64Dec, jsonLoadsObj := jo } (.bytes b) =
            .ok dta)
    ∧ (∀ (c : Codecs B O) (s : String), c.jsonLoads s = none →
        decodeMessage c (.str s) = .error .malformedPayload)
    ∧ (∀ (c : Codecs B O) (b : B), (c.utf8Decode b).bind c.jsonLoads = none →
        decodeMessage c (.bytes b) = .error .malformedPayload)
    ∧ (∀ (c : Codecs B O) (x : O),
        (c.b64Decode x).bind (fun b => (c.utf8Decode b).bind c.jsonLoads) = none →
        c.jsonLoadsObj x = none →
        decodeMessage c (.other x) = .error .malformedPayload) := by
  refine ⟨?_, ?_, ?_, ?_⟩
  · intro c b s dta h1 h2 b64Dec jo
    simp [decodeMessage, h1, h2]
  · intro c s h
    simp [decodeMessage, h]
  · intro c b h
    rw [decodeMessage_bytes_eq]
    rcases hu : c.utf8Decode b with _ | s
    · rfl
    · rw [hu] at h
      simp at h
      simp [h]
  · intro c x h1 h2
    simp [decodeMessage, h1, h2]

/-- C3 witness: concrete codecs over `Nat`-coded bytes/objects; byte string
`0` UTF-8 decodes to `"{}"` which parses to the empty payload, and is taken
even though the base64 route would decode to something else; an unparsable
`str` input yields `MalformedPayload`. -/
theorem decode_fallback_order_witness :
    decodeMessage
      (⟨fun s => if s = "\x7b\x7d" then some [] else none,
        fun b => if b = 0 then some "\x7b\x7d" else none,
        fun _ => some 0,
        fun _ => some [("x", Value.int 1)]⟩ : Codecs Nat Nat)
      (.bytes 0) = .ok []
    ∧ decodeMessage
      (⟨fun _ => none, fun _ => none, fun _ => none, fun _ => none⟩ : Codecs Nat Nat)
      (.str "oops") = .error .malformedPayload :=
  ⟨decode_fallback_order.1
      ⟨fun s => if s = "\x7b\x7d" then some [] else none,
        fun b => if b = 0 then some "\x7b\x7d" else none,
        fun _ => none, fun _ => none⟩
      0 "\x7b\x7d" [] (by decide) (by decide) (fun _ => some 0)
      (fun _ => some [("x", Value.int 1)]),
   decode_fallback_order.2.1
      ⟨fun _ => none, fun _ => none, fun _ => none, fun _ => none⟩
      "oops" rfl⟩

/-- C6: per envelope, when processing raises, the dispatcher increments
exactly `messages_failed` and `total_processing_time`, leaves
`messages_processed` and `relationships_created` (and the graph) unchanged,
and re-raises the error; when processing succeeds it increments
`messages_processed` by 1, `total_processing_time` by the elapsed time and
`relationships_created` by the handler's count, leaving `messages_failed`
unchanged. -/
theorem dispatch_metrics_accounting {B O : Type} (c : Codecs B O) (ctx : Ctx) (g : Graph)
    (stats : PerfStats) (msg : WireMessage B O) (elapsed : ℚ) :
    (∀ e, (processHealthcareMessage c ctx g stats msg elapsed).2.2 = .error e →
      (processHealthcareMessage c ctx g stats msg elapsed).2.1.messages_failed
          = stats.messages_failed + 1 ∧
      (processHealthcareMessage c ctx g stats msg elapsed).2.1.total_processing_time
          = stats.total_processing_time + elapsed ∧
      (processHealthcareMessage c ctx g stats msg elapsed).2.1.messages_processed
          = stats.messages_processed ∧
      (processHealthcareMessage c ctx g stats msg elapsed).2.1.relationships_created
          = stats.relationships_created ∧
      (processHealthcareMessage c ctx g stats msg elapsed).1 = g)
    ∧ (∀ r, (processHealthcareMessage c ctx g stats msg elapsed).2.2 = .ok r →
      (processHealthcareMessage c ctx g stats msg elapsed).2.1.messages_processed
          = stats.messages_processed + 1 ∧
      (processHealthcareMessage c ctx g stats msg elapsed).2.1.total_processing_time
          = stats.total_processing_time + elapsed ∧
      (processHealthcareMessage c ctx g stats msg elapsed).2.1.relationships_created
          = stats.relationships_created + r.relationships_created ∧
      (processHealthcareMessage c ctx g stats msg elapsed).2.1.messages_failed
          = stats.messages_failed) := by
  rcases hout : (do
      let data ← decodeMessage c msg
      createHealthcareEntity ctx g data : Except IngestionError (Graph × HandlerResult)) with e | p
  · constructor
    · intro e' he'
      unfold processHealthcareMessage
      rw [hout]
      simp
    · intro r hr
      unfold processHealthcareMessage at hr
      rw [hout] at hr
      simp at hr
  · constructor
    · intro e' he'
      unfold processHealthcareMessage at he'
      rw [hout] at he'
      simp at he'
    · intro r hr
      unfold processHealthcareMessage at hr ⊢
      rw [hout] at hr ⊢
      simp at hr ⊢
      subst hr
      simp

/-- C6 witness: a failing dispatch (unparsable payload) bumps
`messages_failed`, a successful hospital dispatch bumps
`messages_processed`, both from fresh counters. -/
theorem dispatch_metrics_accounting_witness :
    ((processHealthcareMessage
        (⟨fun _ => none, fun _ => none, fun _ => none, fun _ => none⟩ : Codecs Nat Nat)
        ⟨"t", "u"⟩ Graph.empty ⟨0, 0, 0, 0, 0⟩ (.str "bad") 1).2.1.messages_failed = 0 + 1)
    ∧ ((processHealthcareMessage
        (⟨fun _ => some [("type", Value.str "hospital"), ("id", Value.str "h1")],
          fun _ => none, fun _ => none, fun _ => none⟩ : Codecs Nat Nat)
        ⟨"t", "u"⟩ Graph.empty ⟨0, 0, 0, 0, 0⟩ (.str "m") 1).2.1.messages_processed = 0 + 1) :=
  ⟨((dispatch_metrics_accounting
        (⟨fun _ => none, fun _ => none, fun _ => none, fun _ => none⟩ : Codecs Nat Nat)
        ⟨"t", "u"⟩ Graph.empty ⟨0, 0, 0, 0, 0⟩ (.str "bad") 1).1
      .malformedPayload rfl).1,
   ((dispatch_metrics_accounting
        (⟨fun _ => some [("type", Value.str "hospital"), ("id", Value.str "h1")],
          fun _ => none, fun _ => none, fun _ => none⟩ : Codecs Nat Nat)
        ⟨"t", "u"⟩ Graph.empty ⟨0, 0, 0, 0, 0⟩ (.str "m") 1).2
      ⟨.str "h1", "Hospital", 0, pyRound2 (1 * 1000)⟩ rfl).1⟩

/-- C10: `publish_message_batch` returns a pair `(batch_success,
batch_failed)` summing to the number of messages, both on the normal path
(each future tallied exactly once) and on the submission-raise path, which
returns `(0, len(messages))`. -/
theorem publish_batch_pair_tally {α : Type} (size : α → Nat) (resolve : α → Bool)
    (submitOk : Bool) (messages : List α) (m : PublisherMetrics) (batchTime : ℚ) :
    (publishMessageBatch size resolve submitOk messages m batchTime).2.1 +
      (publishMessageBatch size resolve submitOk messages m batchTime).2.2
      = messages.length
    ∧ (submitOk = false →
        (publishMessageBatch size resolve submitOk messages m batchTime).2
          = (0, messages.length)) := by
  constructor
  · cases submitOk
    · simp [publishMessageBatch]
    · unfold publishMessageBatch
      have h := (foldl_publishStep_tally size resolve messages (m, 0, 0)).1
      simpa using h
  · intro h
    subst h
    simp [publishMessageBatch]

/-- C10 witness: a three-message batch whose submission phase raises
returns `(0, 3)`. -/
theorem publish_batch_pair_tally_witness :
    ((publishMessageBatch (fun (_ : Nat) => 1) (fun n => n % 2 == 0) false [1, 2, 3]
        PublisherMetrics.init 0).2.1 +
      (publishMessageBatch (fun (_ : Nat) => 1) (fun n => n % 2 == 0) false [1, 2, 3]
        PublisherMetrics.init 0).2.2 = 3)
    ∧ (publishMessageBatch (fun (_ : Nat) => 1) (fun n => n % 2 == 0) false [1, 2, 3]
        PublisherMetrics.init 0).2 = (0, 3) :=
  ⟨(publish_batch_pair_tally (fun _ => 1) (fun n => n % 2 == 0) false [1, 2, 3]
      PublisherMetrics.init 0).1,
   (publish_batch_pair_tally (fun _ => 1) (fun n => n % 2 == 0) false [1, 2, 3]
      PublisherMetrics.init 0).2 rfl⟩

/-- C4, counterexample: with `messages_sent = 1` and `messages_failed = 2`
(publishing started), `get_stats` reports `success_rate_percent = 33.33`,
which differs from the claim's exact `100 * 1 / (1 + 2) = 100/3`: the code
rounds the rate to two decimal places. -/
theorem success_rate_claim_cex :
    ((getStats ⟨some 0, some 1, 1, 2, 10, []⟩ 5).map PublishStats.success_rate_percent)
      = some (3333 / 100 : ℚ)
    ∧ (3333 / 100 : ℚ) ≠ 100 * 1 / (1 + 2) := by
  constructor
  · have h1 : (getStats ⟨some 0, some 1, 1, 2, 10, []⟩ 5).map PublishStats.success_rate_percent
        = some (pyRound2 ((1 : ℚ) / (3 : ℚ) * 100)) := by
      norm_num [getStats]
    rw [h1]
    have h2 : pyRound2 ((1 : ℚ) / (3 : ℚ) * 100) = 3333 / 100 := by
      unfold pyRound2 pyRoundInt
      norm_num [Int.fract]
    rw [h2]
  · norm_num

/-- C4, amended: once publishing has started, `success_rate_percent` equals
`100 * messages_sent / (messages_sent + messages_failed)` rounded to two
decimal places for non-zero totals, and is 0 with zero totals (no division
error: the denominator is guarded by `max(total, 1)`). -/
theorem success_rate_formula (m : PublisherMetrics) (now st : ℚ)
    (h : m.start_time = some st) :
    (getStats m now).map PublishStats.success_rate_percent =
      some (if m.messages_sent + m.messages_failed = 0 then 0
        else pyRound2 (100 * (m.messages_sent : ℚ)
          / ((m.messages_sent + m.messages_failed : Nat) : ℚ))) := by
  rcases Nat.eq_zero_or_pos (m.messages_sent + m.messages_failed) with h0 | hpos
  · have hs : m.messages_sent = 0 := (Nat.add_eq_zero.mp h0).1
    have hf : m.messages_failed = 0 := (Nat.add_eq_zero.mp h0).2
    simp [getStats, h, hs, hf]
    unfold pyRound2 pyRoundInt
    norm_num
  · have hne : m.messages_sent + m.messages_failed ≠ 0 := Nat.pos_iff_ne_zero.mp hpos
    have hmax : max (m.messages_sent + m.messages_failed) 1
        = m.messages_sent + m.messages_failed := max_eq_left hpos
    simp [getStats, h, hne, hmax]
    congr 1
    ring

/-- C4 witness: 3 sent / 1 failed gives a success rate of exactly 75%. -/
theorem success_rate_formula_witness :
    (getStats ⟨some 0, none, 3, 1, 5, []⟩ 9).map PublishStats.success_rate_percent
      = some (75 : ℚ) :=
  (success_rate_formula ⟨some 0, none, 3, 1, 5, []⟩ 9 0 rfl).trans (by
    norm_num
    unfold pyRound2 pyRoundInt
    norm_num [Int.fract])

/-- C5: 237 records with `batch_size = 50` partition into exactly 5
contiguous batches of sizes 50, 50, 50, 50, 37 which concatenate back to
the input, and running them all through `publish_message_batch` (every
batch submitting, every record tallied individually) leaves
`messages_sent + messages_failed = 237`, whatever each record's publish
outcome. -/
theorem batch_partition_237 {α : Type} (l : List α) (hl : l.length = 237)
    (size : α → Nat) (resolve : α → Bool) (batchTime t : ℚ) :
    (splitIntoBatches 50 l).map List.length = [50, 50, 50, 50, 37]
    ∧ (splitIntoBatches 50 l).length = 5
    ∧ (splitIntoBatches 50 l).flatten = l
    ∧ (runBatches size resolve batchTime (splitIntoBatches 50 l)
          (PublisherMetrics.init.startPublishing t)).1.messages_sent
      + (runBatches size resolve batchTime (splitIntoBatches 50 l)
          (PublisherMetrics.init.startPublishing t)).1.messages_failed = 237 := by
  have hmap : (splitIntoBatches 50 l).map List.length = [50, 50, 50, 50, 37] := by
    unfold splitIntoBatches
    rw [splitGo_map_length, hl]
    decide
  refine ⟨hmap, ?_, ?_, ?_⟩
  · have h5 := congrArg List.length hmap
    simpa using h5
  · unfold splitIntoBatches
    exact splitGo_flatten 50 (by decide) l.length l (le_refl _)
  · unfold runBatches
    rw [foldl_runBatchesStep_tally]
    rw [hmap]
    simp [PublisherMetrics.init, PublisherMetrics.startPublishing]

/-- C5 witness: the partition property at the concrete record list
`List.range 237` with every publish succeeding. -/
theorem batch_partition_237_witness :
    (splitIntoBatches 50 (List.range 237)).map List.length = [50, 50, 50, 50, 37]
    ∧ (splitIntoBatches 50 (List.range 237)).length = 5
    ∧ (splitIntoBatches 50 (List.range 237)).flatten = List.range 237
    ∧ (runBatches (fun _ => 1) (fun _ => true) 0 (splitIntoBatches 50 (List.range 237))
          (PublisherMetrics.init.startPublishing 0)).1.messages_sent
      + (runBatches (fun _ => 1) (fun _ => true) 0 (splitIntoBatches 50 (List.range 237))
          (PublisherMetrics.init.startPublishing 0)).1.messages_failed = 237 :=
  batch_partition_237 (List.range 237) (by simp) (fun _ => 1) (fun _ => true) 0 0

/-- `_create_diagnosis` always `CREATE`s exactly one fresh Diagnosis node,
whatever optional relationship references the payload carries. -/
theorem createDiagnosis_appends (ctx : Ctx) (g : Graph) (d : Payload) (i : Value)
    (hId : d.get? "id" = some i) :
    ∃ g' r, createDiagnosis ctx g d = .ok (g', r) ∧
      g'.nodes = g.nodes ++
        [⟨["Diagnosis"],
          [("id", i),
           ("icd10_code", d.getD "icd10_code" (.str "")),
           ("description", d.getD "description" (.str "")),
           ("severity", d.getD "severity" (.str "")),
           ("diagnosed_date", d.getD "diagnosed_date" (.str "")),
           ("status", d.getD "status" (.str "")),
           ("created_at", .str ctx.now)]⟩] := by
  unfold createDiagnosis
  simp only [Payload.getKey, hId, Except.mapError]
  rcases hp : d.get? "patient_id" with _ | pv <;>
    rcases hd : d.get? "doctor_id" with _ | dv <;>
      simp only [bind, Except.bind, pure, Except.pure] <;>
      (try split_ifs) <;>
      exact ⟨_, _, rfl, by simp [Graph.matchMergeRel_nodes, Graph.createNode]⟩

/-- `_create_medication` always `CREATE`s exactly one fresh Medication node. -/
theorem createMedication_appends (ctx : Ctx) (g : Graph) (d : Payload) (i : Value)
    (hId : d.get? "id" = some i) :
    ∃ g' r, createMedication ctx g d = .ok (g', r) ∧
      g'.nodes = g.nodes ++
        [⟨["Medication"],
          [("id", i),
           ("medication_name", d.getD "medication_name" (.str "")),
           ("dosage", d.getD "dosage" (.str "")),
           ("frequency", d.getD "frequency" (.str "")),
           ("indication", d.getD "indication" (.str "")),
           ("prescribed_date", d.getD "prescribed_date" (.str "")),
           ("quantity", d.getD "quantity" (.int 0)),
           ("refills", d.getD "refills" (.int 0)),
           ("status", d.getD "status" (.str "")),
           ("created_at", .str ctx.now)]⟩] := by
  unfold createMedication
  simp only [Payload.getKey, hId, Except.mapError]
  rcases hp : d.get? "patient_id" with _ | pv <;>
    rcases hd : d.get? "prescribing_doctor_id" with _ | dv <;>
      simp only [bind, Except.bind, pure, Except.pure] <;>
      (try split_ifs) <;>
      exact ⟨_, _, rfl, by simp [Graph.matchMergeRel_nodes, Graph.createNode]⟩

/-- `_create_procedure` always `CREATE`s exactly one fresh Procedure node. -/
theorem createProcedure_appends (ctx : Ctx) (g : Graph) (d : Payload) (i : Value)
    (hId : d.get? "id" = some i) :
    ∃ g' r, createProcedure ctx g d = .ok (g', r) ∧
      g'.nodes = g.nodes ++
        [⟨["Procedure"],
          [("id", i),
           ("cpt_code", d.getD "cpt_code" (.str "")),
           ("procedure_name", d.getD "procedure_name" (.str "")),
           ("procedure_type", d.getD "procedure_type" (.str "")),
           ("procedure_date", d.getD "procedure_date" (.str "")),
           ("duration_minutes", d.getD "duration_minutes" (.int 0)),
           ("status", d.getD "status" (.str "")),
           ("cost", d.getD "cost" (.num 0)),
           ("created_at", .str ctx.now)]⟩] := by
  unfold createProcedure
  simp only [Payload.getKey, hId, Except.mapError]
  rcases hp : d.get? "patient_id" with _ | pv <;>
    rcases hd : d.get? "performing_doctor_id" with _ | dv <;>
      rcases hh : d.get? "hospital_id" with _ | hv <;>
      simp only [bind, Except.bind, pure, Except.pure] <;>
      (try split_ifs) <;>
      exact ⟨_, _, rfl, by simp [Graph.matchMergeRel_nodes, Graph.createNode]⟩

/-- Existential form of `createDiagnosis_appends`. -/
theorem createDiagnosis_appends1 (ctx : Ctx) (g : Graph) (d : Payload) (i : Value)
    (hId : d.get? "id" = some i) :
    ∃ g' r n, createDiagnosis ctx g d = .ok (g', r) ∧ g'.nodes = g.nodes ++ [n] ∧
      n.labels = ["Diagnosis"] ∧ n.props.get? "id" = some i := by
  obtain ⟨g', r, hrun, hn⟩ := createDiagnosis_appends ctx g d i hId
  exact ⟨g', r, _, hrun, hn, rfl, by simp [Payload.get?]⟩

/-- Existential form of `createMedication_appends`. -/
theorem createMedication_appends1 (ctx : Ctx) (g : Graph) (d : Payload) (i : Value)
    (hId : d.get? "id" = some i) :
    ∃ g' r n, createMedication ctx g d = .ok (g', r) ∧ g'.nodes = g.nodes ++ [n] ∧
      n.labels = ["Medication"] ∧ n.props.get? "id" = some i := by
  obtain ⟨g', r, hrun, hn⟩ := createMedication_appends ctx g d i hId
  exact ⟨g', r, _, hrun, hn, rfl, by simp [Payload.get?]⟩

/-- Existential form of `createProcedure_appends`. -/
theorem createProcedure_appends1 (ctx : Ctx) (g : Graph) (d : Payload) (i : Value)
    (hId : d.get? "id" = some i) :
    ∃ g' r n, createProcedure ctx g d = .ok (g', r) ∧ g'.nodes = g.nodes ++ [n] ∧
      n.labels = ["Procedure"] ∧ n.props.get? "id" = some i := by
  obtain ⟨g', r, hrun, hn⟩ := createProcedure_appends ctx g d i hId
  exact ⟨g', r, _, hrun, hn, rfl, by simp [Payload.get?]⟩

/-- C8: for every immutable clinical-event kind (diagnosis, medication,
procedure), ingesting two envelopes with distinct ids and identical payload
content appends two distinct nodes — each envelope creates a new node
rather than upserting, and the per-label node count grows by exactly 2. -/
theorem immutable_event_two_nodes (ctx₁ ctx₂ : Ctx) (g : Graph) (d₁ d₂ : Payload)
    (kind label : String) (i₁ i₂ : Value)
    (hK : (kind, label) ∈ ([("diagnosis", "Diagnosis"), ("medication", "Medication"),
        ("procedure", "Procedure")] : List (String × String)))
    (hT₁ : d₁.get? "type" = some (.str kind)) (hT₂ : d₂.get? "type" = some (.str kind))
    (hI₁ : d₁.get? "id" = some i₁) (hI₂ : d₂.get? "id" = some i₂)
    (hne : i₁ ≠ i₂)
    (_hSame : ∀ k, k ≠ "id" → d₁.get? k = d₂.get? k) :
    ∃ g₁ r₁ g₂ r₂ n₁ n₂,
      createHealthcareEntity ctx₁ g d₁ = .ok (g₁, r₁) ∧
      createHealthcareEntity ctx₂ g₁ d₂ = .ok (g₂, r₂) ∧
      g₂.nodes = g.nodes ++ [n₁, n₂] ∧
      n₁.labels = [label] ∧ n₂.labels = [label] ∧
      n₁.props.get? "id" = some i₁ ∧ n₂.props.get? "id" = some i₂ ∧
      n₁ ≠ n₂ ∧
      g₂.countLabel label = g.countLabel label + 2 := by
  simp only [List.mem_cons, List.not_mem_nil, or_false, Prod.mk.injEq] at hK
  rcases hK with ⟨rfl, rfl⟩ | ⟨rfl, rfl⟩ | ⟨rfl, rfl⟩
  · have hd₁ : createHealthcareEntity ctx₁ g d₁ = createDiagnosis ctx₁ g d₁ := by
      unfold createHealthcareEntity
      rw [hT₁]
      rfl
    have hd₂ : ∀ h, createHealthcareEntity ctx₂ h d₂ = createDiagnosis ctx₂ h d₂ := by
      intro h
      unfold createHealthcareEntity
      rw [hT₂]
      rfl
    obtain ⟨g₁, r₁, n₁, hrun₁, hn₁, hl₁, hid₁⟩ := createDiagnosis_appends1 ctx₁ g d₁ i₁ hI₁
    obtain ⟨g₂, r₂, n₂, hrun₂, hn₂, hl₂, hid₂⟩ := createDiagnosis_appends1 ctx₂ g₁ d₂ i₂ hI₂
    refine ⟨g₁, r₁, g₂, r₂, n₁, n₂, hd₁.trans hrun₁, (hd₂ g₁).trans hrun₂,
      ?_, hl₁, hl₂, hid₁, hid₂, ?_, ?_⟩
    · rw [hn₂, hn₁, List.append_assoc]
      rfl
    · intro hcon
      rw [hcon, hid₂] at hid₁
      exact hne (Option.some.inj hid₁).symm
    · unfold Graph.countLabel
      rw [hn₂, hn₁]
      simp [List.filter_append, hl₁, hl₂]
  · have hd₁ : createHealthcareEntity ctx₁ g d₁ = createMedication ctx₁ g d₁ := by
      unfold createHealthcareEntity
      rw [hT₁]
      rfl
    have hd₂ : ∀ h, createHealthcareEntity ctx₂ h d₂ = createMedication ctx₂ h d₂ := by
      intro h
      unfold createHealthcareEntity
      rw [hT₂]
      rfl
    obtain ⟨g₁, r₁, n₁, hrun₁, hn₁, hl₁, hid₁⟩ := createMedication_appends1 ctx₁ g d₁ i₁ hI₁
    obtain ⟨g₂, r₂, n₂, hrun₂, hn₂, hl₂, hid₂⟩ := createMedication_appends1 ctx₂ g₁ d₂ i₂ hI₂
    refine ⟨g₁, r₁, g₂, r₂, n₁, n₂, hd₁.trans hrun₁, (hd₂ g₁).trans hrun₂,
      ?_, hl₁, hl₂, hid₁, hid₂, ?_, ?_⟩
    · rw [hn₂, hn₁, List.append_assoc]
      rfl
    · intro hcon
      rw [hcon, hid₂] at hid₁
      exact hne (Option.some.inj hid₁).symm
    · unfold Graph.countLabel
      rw [hn₂, hn₁]
      simp [List.filter_append, hl₁, hl₂]
  · have hd₁ : createHealthcareEntity ctx₁ g d₁ = createProcedure ctx₁ g d₁ := by
      unfold createHealthcareEntity
      rw [hT₁]
      rfl
    have hd₂ : ∀ h, createHealthcareEntity ctx₂ h d₂ = createProcedure ctx₂ h d₂ := by
      intro h
      unfold createHealthcareEntity
      rw [hT₂]
      rfl
    obtain ⟨g₁, r₁, n₁, hrun₁, hn₁, hl₁, hid₁⟩ := createProcedure_appends1 ctx₁ g d₁ i₁ hI₁
    obtain ⟨g₂, r₂, n₂, hrun₂, hn₂, hl₂, hid₂⟩ := createProcedure_appends1 ctx₂ g₁ d₂ i₂ hI₂
    refine ⟨g₁, r₁, g₂, r₂, n₁, n₂, hd₁.trans hrun₁, (hd₂ g₁).trans hrun₂,
      ?_, hl₁, hl₂, hid₁, hid₂, ?_, ?_⟩
    · rw [hn₂, hn₁, List.append_assoc]
      rfl
    · intro hcon
      rw [hcon, hid₂] at hid₁
      exact hne (Option.some.inj hid₁).symm
    · unfold Graph.countLabel
      rw [hn₂, hn₁]
      simp [List.filter_append, hl₁, hl₂]

/-- C8 witness: two diagnosis envelopes `d1`/`d2` with identical content and
distinct ids against the empty store. -/
theorem immutable_event_two_nodes_witness :
    ∃ g₁ r₁ g₂ r₂ n₁ n₂,
      createHealthcareEntity ⟨"t1", "u1"⟩ Graph.empty
          [("type", Value.str "diagnosis"), ("id", Value.str "d1")] = .ok (g₁, r₁) ∧
      createHealthcareEntity ⟨"t2", "u2"⟩ g₁
          [("type", Value.str "diagnosis"), ("id", Value.str "d2")] = .ok (g₂, r₂) ∧
      g₂.nodes = Graph.empty.nodes ++ [n₁, n₂] ∧
      n₁.labels = ["Diagnosis"] ∧ n₂.labels = ["Diagnosis"] ∧
      n₁.props.get? "id" = some (Value.str "d1") ∧
      n₂.props.get? "id" = some (Value.str "d2") ∧
      n₁ ≠ n₂ ∧
      g₂.countLabel "Diagnosis" = Graph.empty.countLabel "Diagnosis" + 2 :=
  immutable_event_two_nodes ⟨"t1", "u1"⟩ ⟨"t2", "u2"⟩ Graph.empty
    [("type", Value.str "diagnosis"), ("id", Value.str "d1")]
    [("type", Value.str "diagnosis"), ("id", Value.str "d2")]
    "diagnosis" "Diagnosis" (Value.str "d1") (Value.str "d2")
    (by decide) (by decide) (by decide) (by decide) (by decide) (by decide)
    (by
      intro k hk
      by_cases h1 : k = "type"
      · subst h1
        rfl
      · by_cases h2 : k = "id"
        · exact absurd h2 hk
        · have h1b : ("type" == k) = false :=
            beq_eq_false_iff_ne.mpr (fun h => h1 h.symm)
          have h2b : ("id" == k) = false :=
            beq_eq_false_iff_ne.mpr (fun h => h2 h.symm)
          simp [Payload.get?, List.find?, h1b, h2b])

/-- A node freshly merged as `(label {id: i})` + `SET`s matches its own
pattern, provided `id` is not among the `SET` keys. -/
theorem newNode_matches (label : String) (i : Value) (kvs : List (String × Value))
    (h : "id" ∉ kvs.map Prod.fst) :
    Graph.nodeMatches label i ⟨[label], Payload.setProps [("id", i)] kvs⟩ = true := by
  unfold Graph.nodeMatches
  dsimp only
  rw [Payload.get?_setProps_not_mem _ _ _ h]
  simp [Payload.get?]

/-- `_create_hospital` writes exactly the `MERGE`+`SET` of its field list. -/
theorem createHospital_nodes (ctx : Ctx) (g : Graph) (d : Payload) (i : Value)
    (hId : d.get? "id" = some i) :
    ∃ g' r, createHospital ctx g d = .ok (g', r) ∧
      g'.nodes = (g.mergeSetNode "Hospital" i
        [("name", d.getD "name" (.str "")),
         ("location", d.getD "location" (.str "")),
         ("hospital_type", d.getD "hospital_type" (.str "")),
         ("bed_count", d.getD "bed_count" (.int 0)),
         ("trauma_center", d.getD "trauma_center" (.bool false)),
         ("teaching_hospital", d.getD "teaching_hospital" (.bool false)),
         ("updated_at", .str ctx.now)]).nodes := by
  unfold createHospital
  simp [Payload.getKey, hId, Except.mapError]

/-- `_create_doctor`'s node writes are exactly the Doctor `MERGE`+`SET`;
the optional `WORKS_AT` edge never touches the node list. -/
theorem createDoctor_nodes (ctx : Ctx) (g : Graph) (d : Payload) (i : Value)
    (hId : d.get? "id" = some i) :
    ∃ g' r, createDoctor ctx g d = .ok (g', r) ∧
      g'.nodes = (g.mergeSetNode "Doctor" i
        [("name", d.getD "name" (.str "")),
         ("specialty", d.getD "specialty" (.str "")),
         ("license_number", d.getD "license_number" (.str "")),
         ("years_experience", d.getD "years_experience" (.int 0)),
         ("updated_at", .str ctx.now)]).nodes := by
  unfold createDoctor
  simp only [Payload.getKey, hId, Except.mapError]
  rcases hh : d.get? "hospital_id" with _ | hv <;>
    simp only [bind, Except.bind, pure, Except.pure] <;>
    (try split_ifs) <;>
    exact ⟨_, _, rfl, by simp [Graph.matchMergeRel_nodes]⟩

/-- `_create_patient`'s node writes are exactly the Patient `MERGE`+`SET`;
the optional `HAS_PRIMARY_CARE_DOCTOR` edge never touches the node list. -/
theorem createPatient_nodes (ctx : Ctx) (g : Graph) (d : Payload) (i : Value)
    (hId : d.get? "id" = some i) :
    ∃ g' r, createPatient ctx g d = .ok (g', r) ∧
      g'.nodes = (g.mergeSetNode "Patient" i
        [("name", d.getD "name" (.str "")),
         ("mrn", d.getD "mrn" (.str "")),
         ("date_of_birth", d.getD "date_of_birth" (.str "")),
         ("age", d.getD "age" (.int 0)),
         ("gender", d.getD "gender" (.str "")),
         ("phone", d.getD "phone" (.str "")),
         ("email", d.getD "email" (.str "")),
         ("updated_at", .str ctx.now)]).nodes := by
  unfold createPatient
  simp only [Payload.getKey, hId, Except.mapError]
  rcases hh : d.get? "primary_care_doctor" with _ | hv <;>
    simp only [bind, Except.bind, pure, Except.pure] <;>
    (try split_ifs) <;>
    exact ⟨_, _, rfl, by simp [Graph.matchMergeRel_nodes]⟩

/-- Core upsert argument: merging `(label {id: i})` twice into a store with
no prior match leaves exactly one matching node, carrying the second
`SET` list's values; merging the same list a third time is a node-set
no-op. -/
theorem mergeSet_upsert_core (g : Graph) (label : String) (i : Value)
    (kvs₁ kvs₂ : List (String × Value))
    (hNone : g.matchIdx label i = [])
    (hkeys : kvs₁.map Prod.fst = kvs₂.map Prod.fst)
    (hnodup : (kvs₂.map Prod.fst).Nodup)
    (hid : "id" ∉ kvs₂.map Prod.fst) :
    ∀ (g₁ g₂ : Graph),
      g₁.nodes = (g.mergeSetNode label i kvs₁).nodes →
      g₂.nodes = (g₁.mergeSetNode label i kvs₂).nodes →
      (g₂.nodes.filter (Graph.nodeMatches label i)
          = [⟨[label], Payload.setProps [("id", i)] kvs₂⟩]
        ∧ g₂.nodes.length = g.nodes.length + 1
        ∧ ∀ (g₃ : Graph), g₃.nodes = (g₂.mergeSetNode label i kvs₂).nodes →
            g₃.nodes = g₂.nodes) := by
  intro g₁ g₂ h₁ h₂
  have hid₁ : "id" ∉ kvs₁.map Prod.fst := by
    rw [hkeys]
    exact hid
  have h₁' : g₁.nodes = g.nodes ++ [⟨[label], Payload.setProps [("id", i)] kvs₁⟩] := by
    rw [h₁, Graph.mergeSetNode_nil g label i kvs₁ hNone]
  have hold := Graph.nodeMatches_false_of_matchIdx_nil g label i hNone
  have hm₁ := newNode_matches label i kvs₁ hid₁
  have hm₂ := newNode_matches label i kvs₂ hid
  have hprops : Payload.setProps (Payload.setProps [("id", i)] kvs₁) kvs₂
      = Payload.setProps [("id", i)] kvs₂ :=
    Payload.setProps_override kvs₁ kvs₂ [("id", i)] hkeys hnodup
  have hupd := Graph.mergeSetNode_update g₁ g.nodes _ label i kvs₂ h₁' hold hm₁
  have h₂' : g₂.nodes = g.nodes ++ [⟨[label], Payload.setProps [("id", i)] kvs₂⟩] := by
    rw [h₂, hupd]
    congr 1
    simp [hprops]
  refine ⟨?_, ?_, ?_⟩
  · rw [h₂', List.filter_append]
    rw [List.filter_eq_nil_iff.mpr (by
      intro m hm
      simp [hold m hm])]
    simp [hm₂]
  · rw [h₂']
    simp
  · intro g₃ h₃
    have hupd₂ := Graph.mergeSetNode_update g₂ g.nodes _ label i kvs₂ h₂' hold hm₂
    rw [h₃, hupd₂, h₂']
    congr 1
    have hprops₂ : Payload.setProps (Payload.setProps [("id", i)] kvs₂) kvs₂
        = Payload.setProps [("id", i)] kvs₂ :=
      Payload.setProps_override kvs₂ kvs₂ [("id", i)] rfl hnodup
    simp [hprops₂]

/-- C7: for every mutable reference entity kind (hospital, doctor,
patient), ingesting two envelopes with the same id yields exactly one graph
node matching that (label, id), whose written fields are those of the
second envelope (last-write-wins) while the store grows by one node in
total; re-ingesting the identical second envelope again leaves the node set
unchanged. -/
theorem mutable_upsert_last_write_wins (ctx₁ ctx₂ : Ctx) (g : Graph) (d₁ d₂ : Payload)
    (kind label : String) (sets : Ctx → Payload → List (String × Value)) (i : Value)
    (hK : (kind, label, sets) ∈ ([
      ("hospital", "Hospital", fun ctx d =>
        [("name", d.getD "name" (.str "")),
         ("location", d.getD "location" (.str "")),
         ("hospital_type", d.getD "hospital_type" (.str "")),
         ("bed_count", d.getD "bed_count" (.int 0)),
         ("trauma_center", d.getD "trauma_center" (.bool false)),
         ("teaching_hospital", d.getD "teaching_hospital" (.bool false)),
         ("updated_at", .str ctx.now)]),
      ("doctor", "Doctor", fun ctx d =>
        [("name", d.getD "name" (.str "")),
         ("specialty", d.getD "specialty" (.str "")),
         ("license_number", d.getD "license_number" (.str "")),
         ("years_experience", d.getD "years_experience" (.int 0)),
         ("updated_at", .str ctx.now)]),
      ("patient", "Patient", fun ctx d =>
        [("name", d.getD "name" (.str "")),
         ("mrn", d.getD "mrn" (.str "")),
         ("date_of_birth", d.getD "date_of_birth" (.str "")),
         ("age", d.getD "age" (.int 0)),
         ("gender", d.getD "gender" (.str "")),
         ("phone", d.getD "phone" (.str "")),
         ("email", d.getD "email" (.str "")),
         ("updated_at", .str ctx.now)])] :
      List (String × String × (Ctx → Payload → List (String × Value)))))
    (hT₁ : d₁.get? "type" = some (.str kind)) (hT₂ : d₂.get? "type" = some (.str kind))
    (hI₁ : d₁.get? "id" = some i) (hI₂ : d₂.get? "id" = some i)
    (hNone : g.matchIdx label i = []) :
    ∃ g₁ r₁ g₂ r₂,
      createHealthcareEntity ctx₁ g d₁ = .ok (g₁, r₁) ∧
      createHealthcareEntity ctx₂ g₁ d₂ = .ok (g₂, r₂) ∧
      g₂.nodes.filter (Graph.nodeMatches label i)
        = [⟨[label], Payload.setProps [("id", i)] (sets ctx₂ d₂)⟩] ∧
      g₂.nodes.length = g.nodes.length + 1 ∧
      (∀ g₃ r₃, createHealthcareEntity ctx₂ g₂ d₂ = .ok (g₃, r₃) → g₃.nodes = g₂.nodes) := by
  simp only [List.mem_cons, List.not_mem_nil, or_false, Prod.mk.injEq] at hK
  rcases hK with ⟨rfl, rfl, rfl⟩ | ⟨rfl, rfl, rfl⟩ | ⟨rfl, rfl, rfl⟩
  · have hdisp₁ : createHealthcareEntity ctx₁ g d₁ = createHospital ctx₁ g d₁ := by
      unfold createHealthcareEntity
      rw [hT₁]
      rfl
    obtain ⟨ga, ra, hrun₁, hn₁⟩ := createHospital_nodes ctx₁ g d₁ i hI₁
    have hdisp₂ : createHealthcareEntity ctx₂ ga d₂ = createHospital ctx₂ ga d₂ := by
      unfold createHealthcareEntity
      rw [hT₂]
      rfl
    obtain ⟨gb, rb, hrun₂, hn₂⟩ := createHospital_nodes ctx₂ ga d₂ i hI₂
    have hcore := mergeSet_upsert_core g "Hospital" i
      [("name", d₁.getD "name" (.str "")),
     ("location", d₁.getD "location" (.str "")),
     ("hospital_type", d₁.getD "hospital_type" (.str "")),
     ("bed_count", d₁.getD "bed_count" (.int 0)),
     ("trauma_center", d₁.getD "trauma_center" (.bool false)),
     ("teaching_hospital", d₁.getD "teaching_hospital" (.bool false)),
     ("updated_at", .str ctx₁.now)]
      [("name", d₂.getD "name" (.str "")),
     ("location", d₂.getD "location" (.str "")),
     ("hospital_type", d₂.getD "hospital_type" (.str "")),
     ("bed_count", d₂.getD "bed_count" (.int 0)),
     ("trauma_center", d₂.getD "trauma_center" (.bool false)),
     ("teaching_hospital", d₂.getD "teaching_hospital" (.bool false)),
     ("updated_at", .str ctx₂.now)]
      hNone (by rfl) (by simp) (by simp) ga gb hn₁ hn₂
    refine ⟨ga, ra, gb, rb, hdisp₁.trans hrun₁, hdisp₂.trans hrun₂,
      hcore.1, hcore.2.1, ?_⟩
    intro g₃ r₃ hrun₃
    have hdisp₃ : createHealthcareEntity ctx₂ gb d₂ = createHospital ctx₂ gb d₂ := by
      unfold createHealthcareEntity
      rw [hT₂]
      rfl
    obtain ⟨gc, rc, hrunc, hnc⟩ := createHospital_nodes ctx₂ gb d₂ i hI₂
    rw [hdisp₃, hrunc] at hrun₃
    have hpair := Except.ok.inj hrun₃
    have hg : g₃ = gc := (congrArg Prod.fst hpair).symm
    rw [hg]
    exact hcore.2.2 gc hnc
  · have hdisp₁ : createHealthcareEntity ctx₁ g d₁ = createDoctor ctx₁ g d₁ := by
      unfold createHealthcareEntity
      rw [hT₁]
      rfl
    obtain ⟨ga, ra, hrun₁, hn₁⟩ := createDoctor_nodes ctx₁ g d₁ i hI₁
    have hdisp₂ : createHealthcareEntity ctx₂ ga d₂ = createDoctor ctx₂ ga d₂ := by
      unfold createHealthcareEntity
      rw [hT₂]
      rfl
    obtain ⟨gb, rb, hrun₂, hn₂⟩ := createDoctor_nodes ctx₂ ga d₂ i hI₂
    have hcore := mergeSet_upsert_core g "Doctor" i
      [("name", d₁.getD "name" (.str "")),
     ("specialty", d₁.getD "specialty" (.str "")),
     ("license_number", d₁.getD "license_number" (.str "")),
     ("years_experience", d₁.getD "years_experience" (.int 0)),
     ("updated_at", .str ctx₁.now)]
      [("name", d₂.getD "name" (.str "")),
     ("specialty", d₂.getD "specialty" (.str "")),
     ("license_number", d₂.getD "license_number" (.str "")),
     ("years_experience", d₂.getD "years_experience" (.int 0)),
     ("updated_at", .str ctx₂.now)]
      hNone (by rfl) (by simp) (by simp) ga gb hn₁ hn₂
    refine ⟨ga, ra, gb, rb, hdisp₁.trans hrun₁, hdisp₂.trans hrun₂,
      hcore.1, hcore.2.1, ?_⟩
    intro g₃ r₃ hrun₃
    have hdisp₃ : createHealthcareEntity ctx₂ gb d₂ = createDoctor ctx₂ gb d₂ := by
      unfold createHealthcareEntity
      rw [hT₂]
      rfl
    obtain ⟨gc, rc, hrunc, hnc⟩ := createDoctor_nodes ctx₂ gb d₂ i hI₂
    rw [hdisp₃, hrunc] at hrun₃
    have hpair := Except.ok.inj hrun₃
    have hg : g₃ = gc := (congrArg Prod.fst hpair).symm
    rw [hg]
    exact hcore.2.2 gc hnc
  · have hdisp₁ : createHealthcareEntity ctx₁ g d₁ = createPatient ctx₁ g d₁ := by
      unfold createHealthcareEntity
      rw [hT₁]
      rfl
    obtain ⟨ga, ra, hrun₁, hn₁⟩ := createPatient_nodes ctx₁ g d₁ i hI₁
    have hdisp₂ : createHealthcareEntity ctx₂ ga d₂ = createPatient ctx₂ ga d₂ := by
      unfold createHealthcareEntity
      rw [hT₂]
      rfl
    obtain ⟨gb, rb, hrun₂, hn₂⟩ := createPatient_nodes ctx₂ ga d₂ i hI₂
    have hcore := mergeSet_upsert_core g "Patient" i
      [("name", d₁.getD "name" (.str "")),
     ("mrn", d₁.getD "mrn" (.str "")),
     ("date_of_birth", d₁.getD "date_of_birth" (.str "")),
     ("age", d₁.getD "age" (.int 0)),
     ("gender", d₁.getD "gender" (.str "")),
     ("phone", d₁.getD "phone" (.str "")),
     ("email", d₁.getD "email" (.str "")),
     ("updated_at", .str ctx₁.now)]
      [("name", d₂.getD "name" (.str "")),
     ("mrn", d₂.getD "mrn" (.str "")),
     ("date_of_birth", d₂.getD "date_of_birth" (.str "")),
     ("age", d₂.getD "age" (.int 0)),
     ("gender", d₂.getD "gender" (.str "")),
     ("phone", d₂.getD "phone" (.str "")),
     ("email", d₂.getD "email" (.str "")),
     ("updated_at", .str ctx₂.now)]
      hNone (by rfl) (by simp) (by simp) ga gb hn₁ hn₂
    refine ⟨ga, ra, gb, rb, hdisp₁.trans hrun₁, hdisp₂.trans hrun₂,
      hcore.1, hcore.2.1, ?_⟩
    intro g₃ r₃ hrun₃
    have hdisp₃ : createHealthcareEntity ctx₂ gb d₂ = createPatient ctx₂ gb d₂ := by
      unfold createHealthcareEntity
      rw [hT₂]
      rfl
    obtain ⟨gc, rc, hrunc, hnc⟩ := createPatient_nodes ctx₂ gb d₂ i hI₂
    rw [hdisp₃, hrunc] at hrun₃
    have hpair := Except.ok.inj hrun₃
    have hg : g₃ = gc := (congrArg Prod.fst hpair).symm
    rw [hg]
    exact hcore.2.2 gc hnc
/-- C7 witness: hospital `h1` ingested twice — first with name `"A"`, then
name `"B"` — against the empty store: one Hospital node remains and it
carries name `"B"`. -/
theorem mutable_upsert_last_write_wins_witness :
    ∃ g₁ r₁ g₂ r₂,
      createHealthcareEntity ⟨"t1", "u1"⟩ Graph.empty
          [("type", Value.str "hospital"), ("id", Value.str "h1"),
           ("name", Value.str "A")] = .ok (g₁, r₁) ∧
      createHealthcareEntity ⟨"t2", "u2"⟩ g₁
          [("type", Value.str "hospital"), ("id", Value.str "h1"),
           ("name", Value.str "B")] = .ok (g₂, r₂) ∧
      g₂.nodes.filter (Graph.nodeMatches "Hospital" (Value.str "h1"))
        = [⟨["Hospital"], Payload.setProps [("id", Value.str "h1")]
            [("name", Value.str "B"),
             ("location", Value.str ""),
             ("hospital_type", Value.str ""),
             ("bed_count", Value.int 0),
             ("trauma_center", Value.bool false),
             ("teaching_hospital", Value.bool false),
             ("updated_at", Value.str "t2")]⟩] ∧
      g₂.nodes.length = Graph.empty.nodes.length + 1 ∧
      (∀ g₃ r₃, createHealthcareEntity ⟨"t2", "u2"⟩ g₂
          [("type", Value.str "hospital"), ("id", Value.str "h1"),
           ("name", Value.str "B")] = .ok (g₃, r₃) → g₃.nodes = g₂.nodes) :=
  mutable_upsert_last_write_wins ⟨"t1", "u1"⟩ ⟨"t2", "u2"⟩ Graph.empty
    [("type", Value.str "hospital"), ("id", Value.str "h1"), ("name", Value.str "A")]
    [("type", Value.str "hospital"), ("id", Value.str "h1"), ("name", Value.str "B")]
    "hospital" "Hospital" _ (Value.str "h1")
    (List.Mem.head _) (by decide) (by decide) (by decide) (by decide) (by decide)

theorem sortByCountDesc_sorted {K : Type} (l : List (K × Nat)) :
    (sortByCountDesc l).Pairwise (fun a b => b.2 ≤ a.2) := by
  have h := @List.sorted_mergeSort (K × Nat) (fun a b => decide (b.2 ≤ a.2))
    (fun a b c h₁ h₂ => by
      simp only [decide_eq_true_eq] at h₁ h₂ ⊢
      omega)
    (fun a b => by
      simp only [Bool.or_eq_true, decide_eq_true_eq]
      omega) l
  unfold sortByCountDesc
  exact h.imp (fun hab => by simpa using hab)

theorem sortByCountDesc_perm {K : Type} (l : List (K × Nat)) :
    (sortByCountDesc l).Perm l :=
  List.mergeSort_perm l _

theorem sum_countBy {K : Type} [DecidableEq K] (keys : List K) :
    ((countBy keys).map (fun p => p.2)).sum = keys.length := by
  unfold countBy
  rw [List.map_map]
  simpa using List.sum_map_count_dedup_eq_length keys

theorem sum_sortByCountDesc {K : Type} (l : List (K × Nat)) :
    ((sortByCountDesc l).map (fun p => p.2)).sum = (l.map (fun p => p.2)).sum :=
  ((sortByCountDesc_perm l).map (fun p => p.2)).sum_eq

theorem head_map_eq_flatMap_single (ns : List Node)
    (h : ∀ n ∈ ns, n.labels.length = 1) :
    ns.map (fun n => n.labels.head?) = (ns.flatMap (fun n => n.labels)).map some := by
  induction ns with
  | nil => rfl
  | cons n t ih =>
      obtain ⟨x, hx⟩ := List.length_eq_one.mp (h n (List.mem_cons_self n t))
      rw [List.map_cons, List.flatMap_cons, List.map_append, hx]
      rw [ih (fun m hm => h m (List.mem_cons_of_mem n hm))]
      rfl

theorem count_flatMap_single (ns : List Node)
    (h : ∀ n ∈ ns, n.labels.length = 1) (x : String) :
    (ns.flatMap (fun n => n.labels)).count x
      = (ns.filter (fun n => x ∈ n.labels)).length := by
  induction ns with
  | nil => rfl
  | cons n t ih =>
      obtain ⟨y, hy⟩ := List.length_eq_one.mp (h n (List.mem_cons_self n t))
      rw [List.flatMap_cons, List.count_append, hy,
        ih (fun m hm => h m (List.mem_cons_of_mem n hm))]
      by_cases hxy : x = y
      · subst hxy
        simp [List.count_singleton, List.filter_cons, hy]
        omega
      · rw [List.filter_cons]
        have hnot : (x ∈ n.labels : Bool) = false := by
          rw [hy]
          simp [hxy]
        simp [hnot, List.count_singleton, Ne.symm hxy, hxy]

theorem fallback_eq_apoc (g : Graph)
    (h : ∀ n ∈ g.nodes, n.labels.length = 1) :
    fallbackNodeStats g = apocNodeStats g := by
  unfold fallbackNodeStats apocNodeStats
  congr 1
  rw [head_map_eq_flatMap_single g.nodes h]
  unfold countBy
  rw [List.dedup_map_of_injective (fun a b => Option.some.inj)]
  rw [List.map_map]
  apply List.map_congr_left
  intro x hx
  simp only [Function.comp_apply]
  rw [List.count_map_of_injective _ some (fun a b => Option.some.inj)]
  rw [count_flatMap_single g.nodes h x]
  rfl

/-- C9: `get_healthcare_statistics` returns node and relationship count
groups sorted in descending count order; `total_nodes` / 
`total_relationships` are the sums of the per-group counts (the
relationship total always equals the store's edge count, and on the
fallback path the node total always equals the store's node count); on
single-label stores — the only kind the handlers produce — the fallback
used when APOC is unavailable returns output identical to the APOC path. -/
theorem statistics_sorted_totals (g : Graph) (apoc : Bool) :
    (getHealthcareStatistics apoc g).node_statistics.Pairwise (fun a b => b.2 ≤ a.2)
    ∧ (getHealthcareStatistics apoc g).relationship_statistics.Pairwise (fun a b => b.2 ≤ a.2)
    ∧ (getHealthcareStatistics apoc g).total_nodes
        = ((getHealthcareStatistics apoc g).node_statistics.map (fun p => p.2)).sum
    ∧ (getHealthcareStatistics apoc g).total_relationships
        = ((getHealthcareStatistics apoc g).relationship_statistics.map (fun p => p.2)).sum
    ∧ (getHealthcareStatistics apoc g).total_relationships = g.rels.length
    ∧ (apoc = false → (getHealthcareStatistics apoc g).total_nodes = g.nodes.length)
    ∧ ((∀ n ∈ g.nodes, n.labels.length = 1) →
        getHealthcareStatistics false g = getHealthcareStatistics true g) := by
  refine ⟨?_, ?_, rfl, rfl, ?_, ?_, ?_⟩
  · cases apoc
    · exact sortByCountDesc_sorted _
    · exact sortByCountDesc_sorted _
  · exact sortByCountDesc_sorted _
  · show ((sortByCountDesc (countBy (g.rels.map (fun r => r.relType)))).map
        (fun p => p.2)).sum = g.rels.length
    rw [sum_sortByCountDesc, sum_countBy, List.length_map]
  · intro hfalse
    subst hfalse
    show ((sortByCountDesc (countBy (g.nodes.map (fun n => n.labels.head?)))).map
        (fun p => p.2)).sum = g.nodes.length
    rw [sum_sortByCountDesc, sum_countBy, List.length_map]
  · intro hsl
    simp [getHealthcareStatistics, fallback_eq_apoc g hsl]

/-- C9 witness: a one-doctor, no-edge store; the fallback statistics report
one node, zero relationships, and coincide with the APOC output. -/
theorem statistics_sorted_totals_witness :
    (getHealthcareStatistics false ⟨[⟨["Doctor"], [("id", Value.str "p1")]⟩], []⟩).total_nodes
        = 1
    ∧ getHealthcareStatistics false ⟨[⟨["Doctor"], [("id", Value.str "p1")]⟩], []⟩
        = getHealthcareStatistics true ⟨[⟨["Doctor"], [("id", Value.str "p1")]⟩], []⟩ :=
  ⟨((statistics_sorted_totals ⟨[⟨["Doctor"], [("id", Value.str "p1")]⟩], []⟩
        false).2.2.2.2.2.1 rfl).trans (by decide),
   (statistics_sorted_totals ⟨[⟨["Doctor"], [("id", Value.str "p1")]⟩], []⟩
        false).2.2.2.2.2.2 (by decide)⟩

end PubSubNeo4j
